import Mathlib

/-!
# Verification of the node-local DRA driver core (`cmd/nvidia-dra-plugin/driver.go`)

This file shallowly embeds the driver's data model and operations and proves
properties about them.  Pure Go functions become Lean functions; the stateful
parts (the cluster-visible allocation record, the local mirror, the Device
State Manager) are threaded explicitly through a `World` state.  External
failures (version conflicts on writes, device-manager errors) are injected
through an explicit `Env` schedule, so every definition is executable.

The Device State Manager (`DeviceState`) and the record client (`nasclient`)
are external collaborators whose code is not part of the embedded source;
their operations are modelled from the spec's interface descriptions (each
such definition carries a doc comment saying so).  Everything in the `driver`
namespace is translated from `driver.go`.
-/

set_option autoImplicit false

/-- A claim is identified by a UID string. -/
abbrev ClaimUID := String

/-- Allocation details for one claim, authored by the control plane.
Modelled from the spec: `AllocatedClaims` maps claim-ID to allocation
details; the Go zero value (obtained when indexing a map at a missing key)
is represented by `AllocatedDevices.zero`. -/
structure AllocatedDevices where
  gpuCount : Nat
deriving DecidableEq, Repr

/-- The Go zero value of the allocation-details struct. -/
def AllocatedDevices.zero : AllocatedDevices := ⟨0⟩

/- Association lists standing for Go maps. -/

/-- Lookup in a Go-map modelled as an association list. -/
def mapLookup {α : Type} (m : List (ClaimUID × α)) (k : ClaimUID) : Option α :=
  match m with
  | [] => none
  | (k', v) :: rest => if k' = k then some v else mapLookup rest k

/-- Insert/overwrite a key in a Go-map modelled as an association list. -/
def mapInsert {α : Type} (k : ClaimUID) (v : α) (m : List (ClaimUID × α)) :
    List (ClaimUID × α) :=
  match m with
  | [] => [(k, v)]
  | (k', v') :: rest =>
    if k' = k then (k, v) :: rest else (k', v') :: mapInsert k v rest

/-- Delete a key from a Go-map modelled as an association list. -/
def mapErase {α : Type} (k : ClaimUID) (m : List (ClaimUID × α)) :
    List (ClaimUID × α) :=
  match m with
  | [] => []
  | (k', v') :: rest =>
    if k' = k then mapErase k rest else (k', v') :: mapErase k rest

@[simp] theorem mapLookup_nil {α : Type} (k : ClaimUID) :
    mapLookup ([] : List (ClaimUID × α)) k = none := rfl

theorem mapLookup_cons {α : Type} (k k' : ClaimUID) (v : α) (m : List (ClaimUID × α)) :
    mapLookup ((k', v) :: m) k = if k' = k then some v else mapLookup m k := rfl

@[simp] theorem mapLookup_insert_self {α : Type} (k : ClaimUID) (v : α)
    (m : List (ClaimUID × α)) : mapLookup (mapInsert k v m) k = some v := by
  induction m with
  | nil => simp [mapInsert, mapLookup]
  | cons p rest ih =>
    by_cases h : p.1 = k
    · simp [mapInsert, h, mapLookup]
    · simp [mapInsert, h, mapLookup, ih]

@[simp] theorem mapLookup_insert_ne {α : Type} (k x : ClaimUID) (v : α)
    (m : List (ClaimUID × α)) (hne : k ≠ x) :
    mapLookup (mapInsert k v m) x = mapLookup m x := by
  induction m with
  | nil => simp [mapInsert, mapLookup, hne]
  | cons p rest ih =>
    by_cases h : p.1 = k
    · simp [mapInsert, h, mapLookup, hne]
    · simp [mapInsert, h, mapLookup, ih]

@[simp] theorem mapLookup_erase_self {α : Type} (k : ClaimUID)
    (m : List (ClaimUID × α)) : mapLookup (mapErase k m) k = none := by
  induction m with
  | nil => simp [mapErase]
  | cons p rest ih =>
    by_cases h : p.1 = k
    · simp [mapErase, h, ih]
    · simp [mapErase, h, mapLookup, ih]

@[simp] theorem mapLookup_erase_ne {α : Type} (k x : ClaimUID)
    (m : List (ClaimUID × α)) (hne : k ≠ x) :
    mapLookup (mapErase k m) x = mapLookup m x := by
  induction m with
  | nil => simp [mapErase]
  | cons p rest ih =>
    by_cases h : p.1 = k
    · simp [mapErase, h, mapLookup, ih, hne]
    · simp [mapErase, h, mapLookup, ih]

theorem mem_keys_iff_lookup_isSome {α : Type} (m : List (ClaimUID × α)) (k : ClaimUID) :
    k ∈ m.map Prod.fst ↔ (mapLookup m k).isSome := by
  induction m with
  | nil => simp
  | cons p rest ih =>
    by_cases h : p.1 = k
    · simp [mapLookup, h]
    · simp [mapLookup, h, ih, Ne.symm h]

/- Record and status. -/

/-- Record status. -/
inductive NasStatus where
  | notReady
  | ready
deriving DecidableEq, Repr

/-- The record's spec: the control-plane-authored `AllocatedClaims` and the
driver-authored `PreparedClaims` (claim UID to device-ID list). -/
structure NasSpec where
  allocatedClaims : List (ClaimUID × AllocatedDevices)
  preparedClaims : List (ClaimUID × List String)
deriving DecidableEq, Repr

/-- The per-node `NodeAllocationState` record.  `resourceVersion` is the
opaque version token used for optimistic concurrency (modelled as a `Nat`
that every successful write advances). -/
structure NasRecord where
  name : String
  resourceVersion : Nat
  status : NasStatus
  spec : NasSpec
deriving DecidableEq, Repr

/- The Device State Manager. -/

/-- Modelled from the spec: the Device State Manager's local state.  It
"owns actual device reservation"; `prepared` is its in-memory map of
reserved devices per claim, and `cdiCache` is the local cache served by
`GetClaimDevices`. -/
structure DeviceState where
  prepared : List (ClaimUID × List String)
  cdiCache : List (ClaimUID × List String)
deriving DecidableEq, Repr

/-- Errors.  `conflict` is the version-mismatch error recognised by the
conflict-retry helper; `aggregate n` is the cleanup pass's "encountered n
errors"; `listCount n` is the "unexpected number of allocation state
objects" error; `decode` the watcher's decoding error; `invalidAlloc` the
Device State Manager's rejection of missing/invalid allocation details;
`deviceError` an injected device-manager failure; `other` anything else. -/
inductive Err where
  | conflict
  | aggregate (n : Nat)
  | listCount (n : Nat)
  | decode
  | invalidAlloc
  | deviceError
  | other (s : String)
deriving DecidableEq, Repr

/-- The environment schedule: outcomes of the external collaborators'
fallible calls.  Each client-call list is consumed from the head; an
exhausted list means the call succeeds.  The two `ds*Fails` lists name the
claims for which the Device State Manager's operation fails. -/
structure Env where
  getOrCreateResults : List (Option Err)
  getResults : List (Option Err)
  updateResults : List (Option Err)
  updateStatusResults : List (Option Err)
  newDeviceStateResults : List (Option Err)
  dsPrepareFails : List ClaimUID
  dsUnprepareFails : List ClaimUID
deriving DecidableEq, Repr

/-- The all-success environment: no injected failures or conflicts. -/
def Env.clean : Env := ⟨[], [], [], [], [], [], []⟩

/-- The whole state threaded through the embedding: the cluster-visible
record (`server`), the driver's local mirror of it (`nascrd` in the source,
here `mirror`) and the Device State Manager's state. -/
structure World where
  server : NasRecord
  mirror : NasRecord
  devstate : DeviceState
deriving DecidableEq, Repr

/-- Observable events of one run, used to state which collaborator calls an
operation performs (lock acquisition, client calls, device-manager calls,
cleanup passes). -/
inductive Ev where
  | lockAcquire
  | lockRelease
  | clientGetOrCreate
  | clientGet
  | clientUpdate
  | clientUpdateStatus (st : NasStatus)
  | dsPrepare (claimUID : ClaimUID) (alloc : AllocatedDevices)
  | dsUnprepare (claimUID : ClaimUID)
  | cleanupPass (nas : NasRecord)
deriving DecidableEq, Repr

/-- Is an event a Device State Manager `Prepare` invocation? -/
def Ev.isDsPrepare : Ev → Bool
  | .dsPrepare _ _ => true
  | _ => false

/-- Result of a record-client call: optional error plus updated state. -/
structure ClientOut where
  err : Option Err
  w : World
  env : Env
deriving DecidableEq, Repr

/-- Modelled from the spec: `GetOrCreate(ctx) -> error` idempotently
creates/fetches the record and populates the local mirror.  The record is
assumed to exist in this model; failures are injected by the schedule. -/
def Client.GetOrCreate (w : World) (env : Env) : ClientOut :=
  match env.getOrCreateResults with
  | [] => ⟨none, { w with mirror := w.server }, env⟩
  | none :: rest =>
    ⟨none, { w with mirror := w.server }, { env with getOrCreateResults := rest }⟩
  | some e :: rest => ⟨some e, w, { env with getOrCreateResults := rest }⟩

/-- Modelled from the spec: `Get(ctx) -> error` refreshes the local mirror
from the record. -/
def Client.Get (w : World) (env : Env) : ClientOut :=
  match env.getResults with
  | [] => ⟨none, { w with mirror := w.server }, env⟩
  | none :: rest => ⟨none, { w with mirror := w.server }, { env with getResults := rest }⟩
  | some e :: rest => ⟨some e, w, { env with getResults := rest }⟩

/-- Modelled from the spec: `Update(ctx, spec) -> error`, a version-checked
write that fails with a conflict-kind error on a stale version.  Conflicts
(caused by concurrent writers outside this model) are injected by the
schedule; a successful write installs the spec and advances the version. -/
def Client.Update (spec : NasSpec) (w : World) (env : Env) : ClientOut :=
  let written : NasRecord :=
    { w.server with spec := spec, resourceVersion := w.server.resourceVersion + 1 }
  match env.updateResults with
  | [] => ⟨none, { w with server := written }, env⟩
  | none :: rest => ⟨none, { w with server := written }, { env with updateResults := rest }⟩
  | some e :: rest => ⟨some e, w, { env with updateResults := rest }⟩

/-- Modelled from the spec: `UpdateStatus(ctx, status) -> error`; a
successful write installs the status and advances the version. -/
def Client.UpdateStatus (st : NasStatus) (w : World) (env : Env) : ClientOut :=
  let written : NasRecord :=
    { w.server with status := st, resourceVersion := w.server.resourceVersion + 1 }
  match env.updateStatusResults with
  | [] => ⟨none, { w with server := written }, env⟩
  | none :: rest =>
    ⟨none, { w with server := written }, { env with updateStatusResults := rest }⟩
  | some e :: rest => ⟨some e, w, { env with updateStatusResults := rest }⟩

/-- The device identifiers the model's Device State Manager hands out for a
claim with the given allocation details. -/
def allocDeviceIDs (claimUID : ClaimUID) (a : AllocatedDevices) : List String :=
  (List.range a.gpuCount).map fun i => "gpu-" ++ claimUID ++ "-" ++ toString i

/-- Modelled from the spec: `GetClaimDevices(claimUID) -> deviceIDs`, a
pure local cache lookup with no error path. -/
def DeviceState.GetClaimDevices (s : DeviceState) (claimUID : ClaimUID) : List String :=
  (mapLookup s.cdiCache claimUID).getD []

/-- Modelled from the spec: `Prepare(ctx, claimUID, allocationDetails) ->
(deviceIDs, error)`.  It reserves devices and records them; an
already-prepared claim returns its cached devices without re-reserving
(the core "never double-prepares"); missing/invalid allocation details
(the Go zero value) are surfaced as an error. -/
def DeviceState.Prepare (s : DeviceState) (env : Env) (claimUID : ClaimUID)
    (alloc : AllocatedDevices) : Except Err (List String) × DeviceState :=
  match mapLookup s.prepared claimUID with
  | some _ => (.ok (DeviceState.GetClaimDevices s claimUID), s)
  | none =>
    if alloc.gpuCount = 0 then (.error .invalidAlloc, s)
    else if claimUID ∈ env.dsPrepareFails then (.error .deviceError, s)
    else
      let devices := allocDeviceIDs claimUID alloc
      (.ok devices,
        { s with prepared := mapInsert claimUID devices s.prepared,
                 cdiCache := mapInsert claimUID devices s.cdiCache })

/-- Modelled from the spec: `Unprepare(ctx, claimUID) -> error`, releasing
the claim's devices; a not-currently-prepared claim is a successful no-op. -/
def DeviceState.Unprepare (s : DeviceState) (env : Env) (claimUID : ClaimUID) :
    Except Err Unit × DeviceState :=
  if claimUID ∈ env.dsUnprepareFails then (.error .deviceError, s)
  else
    (.ok (),
      { s with prepared := mapErase claimUID s.prepared,
               cdiCache := mapErase claimUID s.cdiCache })

/-- Modelled from the spec: `GetUpdatedSpec(base) -> spec` projects the
manager's in-memory reservations back into the record's desired-state
shape. -/
def DeviceState.GetUpdatedSpec (s : DeviceState) (base : NasSpec) : NasSpec :=
  { base with preparedClaims := s.prepared }

/-- Modelled from the spec: `NewDeviceState(ctx, config)` initializes the
manager from current record contents, reconstructing already-reserved
devices from `PreparedClaims` so a process restart does not orphan
hardware. -/
def newDeviceState (record : NasRecord) : DeviceState :=
  { prepared := record.spec.preparedClaims, cdiCache := record.spec.preparedClaims }

/- The driver (translated from `cmd/nvidia-dra-plugin/driver.go`). -/

/-- The source constant `CleanupTimeoutSecondsOnError`. -/
def CleanupTimeoutSecondsOnError : Nat := 5

/-- Result of one driver operation: the returned value or error, the final
state, the remaining schedule and the emitted events. -/
structure DriverOut (α : Type) where
  res : Except Err α
  w : World
  env : Env
  evs : List Ev
deriving Repr

/-- The budget `retry.DefaultRetry`: at most 5 attempts. -/
def defaultRetrySteps : Nat := 5

/-- The helper `retry.RetryOnConflict`: run the body; retry while it fails with a
conflict error and attempts remain; stop on success or any other error.
After the last attempt a still-conflicting body surfaces the conflict
error. -/
def retryOnConflict {α : Type} (body : World → Env → DriverOut α) :
    Nat → World → Env → DriverOut α
  | 0, w, env => ⟨.error .conflict, w, env, []⟩
  | steps + 1, w, env =>
    let out := body w env
    match out.res with
    | .error .conflict =>
      if steps = 0 then ⟨.error .conflict, out.w, out.env, out.evs⟩
      else
        let out2 := retryOnConflict body steps out.w out.env
        ⟨out2.res, out2.w, out2.env, out.evs ++ out2.evs⟩
    | _ => out

/-- The method `driver.IsPrepared`: refresh the mirror; if the claim appears in
`PreparedClaims`, report prepared with the cached device list, else report
not prepared with no list. -/
def driver.IsPrepared (claimUID : ClaimUID) (w : World) (env : Env) :
    DriverOut (Bool × List String) :=
  let g := Client.Get w env
  match g.err with
  | some e => ⟨.error e, g.w, g.env, [.clientGet]⟩
  | none =>
    match mapLookup g.w.mirror.spec.preparedClaims claimUID with
    | some _ =>
      ⟨.ok (true, DeviceState.GetClaimDevices g.w.devstate claimUID), g.w, g.env,
        [.clientGet]⟩
    | none => ⟨.ok (false, []), g.w, g.env, [.clientGet]⟩

/-- One attempt of `driver.Prepare`'s conflict-retried body: fetch the
record, ask the Device State Manager to reserve devices using the
allocation details found in `AllocatedClaims[claimUID]` (the Go zero value
when the key is absent), then write back the projected spec. -/
def driver.prepareAttempt (claimUID : ClaimUID) (w : World) (env : Env) :
    DriverOut (List String) :=
  let g := Client.Get w env
  match g.err with
  | some e => ⟨.error e, g.w, g.env, [.clientGet]⟩
  | none =>
    let alloc :=
      (mapLookup g.w.mirror.spec.allocatedClaims claimUID).getD AllocatedDevices.zero
    let p := DeviceState.Prepare g.w.devstate g.env claimUID alloc
    let w1 : World := { g.w with devstate := p.2 }
    match p.1 with
    | .error e => ⟨.error e, w1, g.env, [.clientGet, .dsPrepare claimUID alloc]⟩
    | .ok devices =>
      let u := Client.Update (DeviceState.GetUpdatedSpec w1.devstate w1.mirror.spec) w1 g.env
      match u.err with
      | some e =>
        ⟨.error e, u.w, u.env, [.clientGet, .dsPrepare claimUID alloc, .clientUpdate]⟩
      | none =>
        ⟨.ok devices, u.w, u.env, [.clientGet, .dsPrepare claimUID alloc, .clientUpdate]⟩

/-- The method `driver.Prepare`: the conflict-retried prepare sequence. -/
def driver.Prepare (claimUID : ClaimUID) (w : World) (env : Env) :
    DriverOut (List String) :=
  retryOnConflict (driver.prepareAttempt claimUID) defaultRetrySteps w env

/-- One attempt of `driver.Unprepare`'s conflict-retried body: fetch the
record, release the claim in the Device State Manager, write back the
projected spec. -/
def driver.unprepareAttempt (claimUID : ClaimUID) (w : World) (env : Env) :
    DriverOut Unit :=
  let g := Client.Get w env
  match g.err with
  | some e => ⟨.error e, g.w, g.env, [.clientGet]⟩
  | none =>
    let p := DeviceState.Unprepare g.w.devstate g.env claimUID
    let w1 : World := { g.w with devstate := p.2 }
    match p.1 with
    | .error e => ⟨.error e, w1, g.env, [.clientGet, .dsUnprepare claimUID]⟩
    | .ok _ =>
      let u := Client.Update (DeviceState.GetUpdatedSpec w1.devstate w1.mirror.spec) w1 g.env
      match u.err with
      | some e => ⟨.error e, u.w, u.env, [.clientGet, .dsUnprepare claimUID, .clientUpdate]⟩
      | none => ⟨.ok (), u.w, u.env, [.clientGet, .dsUnprepare claimUID, .clientUpdate]⟩

/-- The method `driver.Unprepare`: the conflict-retried unprepare sequence.  Note that
the source acquires no lock here. -/
def driver.Unprepare (claimUID : ClaimUID) (w : World) (env : Env) : DriverOut Unit :=
  retryOnConflict (driver.unprepareAttempt claimUID) defaultRetrySteps w env

/-- The body of `driver.NodePrepareResource` between `d.Lock()` and the
deferred `d.Unlock()`: the `IsPrepared` idempotency check, then `Prepare`
when the claim is not yet prepared. -/
def driver.nodePrepareBody (claimUID : ClaimUID) (w : World) (env : Env) :
    DriverOut (List String) :=
  let ip := driver.IsPrepared claimUID w env
  match ip.res with
  | .error e => ⟨.error e, ip.w, ip.env, ip.evs⟩
  | .ok (true, prepared) => ⟨.ok prepared, ip.w, ip.env, ip.evs⟩
  | .ok (false, _) =>
    let p := driver.Prepare claimUID ip.w ip.env
    ⟨p.res, p.w, p.env, ip.evs ++ p.evs⟩

/-- The entry point `driver.NodePrepareResource`: takes the
driver-wide lock for the whole body and releases it on exit. -/
def driver.NodePrepareResource (claimUID : ClaimUID) (w : World) (env : Env) :
    DriverOut (List String) :=
  let b := driver.nodePrepareBody claimUID w env
  ⟨b.res, b.w, b.env, Ev.lockAcquire :: b.evs ++ [Ev.lockRelease]⟩

/-- The entry point `driver.NodeUnprepareResource`: deliberately a no-op returning an empty
successful response; unpreparation is deferred to the reconciliation
loop. -/
def driver.NodeUnprepareResource (w : World) (env : Env) : DriverOut Unit :=
  ⟨.ok (), w, env, []⟩

/-- One attempt of `NewDriver`'s conflict-retried body: get-or-create the
record, mark it NotReady, initialize the Device State Manager from current
record contents, write back the projected spec, mark it Ready.
`newDeviceStateResults` lets the schedule fail the manager's
initialization. -/
def driver.newDriverAttempt (w : World) (env : Env) : DriverOut Unit :=
  let goc := Client.GetOrCreate w env
  match goc.err with
  | some e => ⟨.error e, goc.w, goc.env, [.clientGetOrCreate]⟩
  | none =>
    let s1 := Client.UpdateStatus NasStatus.notReady goc.w goc.env
    match s1.err with
    | some e =>
      ⟨.error e, s1.w, s1.env, [.clientGetOrCreate, .clientUpdateStatus .notReady]⟩
    | none =>
      match s1.env.newDeviceStateResults with
      | some e :: rest =>
        ⟨.error e, s1.w, { s1.env with newDeviceStateResults := rest },
          [.clientGetOrCreate, .clientUpdateStatus .notReady]⟩
      | other =>
        let envA : Env :=
          match other with
          | none :: rest => { s1.env with newDeviceStateResults := rest }
          | _ => s1.env
        let w2 : World := { s1.w with devstate := newDeviceState s1.w.mirror }
        let u := Client.Update (DeviceState.GetUpdatedSpec w2.devstate w2.mirror.spec) w2 envA
        match u.err with
        | some e =>
          ⟨.error e, u.w, u.env,
            [.clientGetOrCreate, .clientUpdateStatus .notReady, .clientUpdate]⟩
        | none =>
          let s2 := Client.UpdateStatus NasStatus.ready u.w u.env
          match s2.err with
          | some e =>
            ⟨.error e, s2.w, s2.env,
              [.clientGetOrCreate, .clientUpdateStatus .notReady, .clientUpdate,
                .clientUpdateStatus .ready]⟩
          | none =>
            ⟨.ok (), s2.w, s2.env,
              [.clientGetOrCreate, .clientUpdateStatus .notReady, .clientUpdate,
                .clientUpdateStatus .ready]⟩

/-- Result of `NewDriver`: an error (the driver is nil) or success; on
success the reconciliation loop has been started as a background activity
(recorded by the `loopStarted` flag; the constructor does not run it). -/
structure DriverStart where
  res : Except Err Unit
  w : World
  env : Env
  evs : List Ev
  loopStarted : Bool
deriving Repr

/-- The constructor `NewDriver`: the conflict-retried construction sequence; on any error
no driver is returned and the loop is not started; on success
`CleanupStaleStateContinuously` is spawned and the constructor returns. -/
def NewDriver (w : World) (env : Env) : DriverStart :=
  match retryOnConflict driver.newDriverAttempt defaultRetrySteps w env with
  | ⟨.error e, w1, env1, evs⟩ => ⟨.error e, w1, env1, evs, false⟩
  | ⟨.ok _, w1, env1, evs⟩ => ⟨.ok (), w1, env1, evs, true⟩

/- The reconciliation loop and cleanup fan-out. -/

/-- The claims `driver.cleanupClaimAllocations` spawns unprepare work for:
every claim UID present in the snapshot's `PreparedClaims` and absent from
its `AllocatedClaims`. -/
def driver.orphanedClaims (nas : NasRecord) : List ClaimUID :=
  (nas.spec.preparedClaims.map Prod.fst).filter
    fun claimUID => (mapLookup nas.spec.allocatedClaims claimUID).isNone

/-- The units of work spawned by `driver.cleanupClaimAllocations`, each
calling `driver.Unprepare` and reporting its error independently (the
goroutine fan-out is sequentialized; every unit runs regardless of the
other units' failures, matching the join barrier). -/
def driver.runUnprepares (claims : List ClaimUID) (w : World) (env : Env) :
    List Err × World × Env × List Ev :=
  match claims with
  | [] => ([], w, env, [])
  | c :: rest =>
    let u := driver.Unprepare c w env
    let out := driver.runUnprepares rest u.w u.env
    match u.res with
    | .error e => (e :: out.1, out.2.1, out.2.2.1, u.evs ++ out.2.2.2)
    | .ok _ => (out.1, out.2.1, out.2.2.1, u.evs ++ out.2.2.2)

/-- The method `driver.cleanupClaimAllocations`: one `Unprepare(claimUID)` unit per
orphaned claim of the snapshot; returns the collected per-unit errors. -/
def driver.cleanupClaimAllocations (nas : NasRecord) (w : World) (env : Env) :
    List Err × World × Env × List Ev :=
  driver.runUnprepares (driver.orphanedClaims nas) w env

/-- The stub `driver.cleanupCDIFiles`: placeholder category, currently produces no
work and no errors. -/
def driver.cleanupCDIFiles (nas : NasRecord) : List Err := []

/-- The stub `driver.cleanupMpsControlDaemonArtifacts`: placeholder category,
currently produces no work and no errors. -/
def driver.cleanupMpsControlDaemonArtifacts (nas : NasRecord) : List Err := []

/-- The method `driver.cleanupStaleState`: one cleanup pass over a record snapshot.
Runs the three cleanup categories, waits for all their units, counts every
reported error and fails with the aggregate count when it is nonzero. -/
def driver.cleanupStaleState (nas : NasRecord) (w : World) (env : Env) :
    DriverOut Unit :=
  let ca := driver.cleanupClaimAllocations nas w env
  let caErrors := ca.1
  let cdiErrors := driver.cleanupCDIFiles nas
  let mpsErrors := driver.cleanupMpsControlDaemonArtifacts nas
  let sumErrors := caErrors.length + cdiErrors.length + mpsErrors.length
  if sumErrors = 0 then ⟨.ok (), ca.2.1, ca.2.2.1, ca.2.2.2⟩
  else ⟨.error (.aggregate sumErrors), ca.2.1, ca.2.2.1, ca.2.2.2⟩

/-- The resync step `driver.cleanupStaleStateOnce`: list the record with
a field selector on this node's name (the model client returns the
singleton), check the cardinality is exactly one, run one cleanup pass
against the listed record and return the list's version token (the Go
empty string on error is modelled as `0`). -/
def driver.cleanupStaleStateOnce (w : World) (env : Env) : DriverOut Nat :=
  let items : List NasRecord := [w.server]
  match items with
  | [nas] =>
    let c := driver.cleanupStaleState nas w env
    match c.res with
    | .error e => ⟨.error e, c.w, c.env, Ev.cleanupPass nas :: c.evs⟩
    | .ok _ => ⟨.ok w.server.resourceVersion, c.w, c.env, Ev.cleanupPass nas :: c.evs⟩
  | l => ⟨.error (.listCount l.length), w, env, []⟩

/- The watch stream. -/

/-- Watch event types. -/
inductive WatchEventType where
  | added
  | modified
  | deleted
  | bookmark
deriving DecidableEq, Repr

/-- A watch event: its type and its decoded object (`none` models a payload
that fails the type assertion to `*NodeAllocationState`). -/
structure WatchEvent where
  type : WatchEventType
  obj : Option NasRecord
deriving DecidableEq, Repr

/-- The options a watch is opened with. -/
structure WatchOptions where
  watch : Bool
  resourceVersion : Nat
  fieldSelector : String
  timeoutSeconds : Option Nat
deriving DecidableEq, Repr

/-- The watch options `driver.cleanupStaleStateContinuously` builds: watch
from the given version token, filtered to this node's record, with a short
bounded timeout when the previous pass ended in error. -/
def driver.watchOptions (name : String) (resourceVersion : Nat)
    (previousError : Option Err) : WatchOptions :=
  { watch := true,
    resourceVersion := resourceVersion,
    fieldSelector := "metadata.name=" ++ name,
    timeoutSeconds :=
      match previousError with
      | some _ => some CleanupTimeoutSecondsOnError
      | none => none }

/-- The event-consuming loop of `driver.cleanupStaleStateContinuously`:
events that are not modifications are skipped; a modification event is
decoded (failure aborts with a decoding error) and one cleanup pass is run
against the new value (a failing pass aborts the watch). -/
def driver.watchLoop (events : List WatchEvent) (w : World) (env : Env) :
    DriverOut Unit :=
  match events with
  | [] => ⟨.ok (), w, env, []⟩
  | e :: rest =>
    match e.type with
    | .modified =>
      match e.obj with
      | none => ⟨.error .decode, w, env, []⟩
      | some nas =>
        let c := driver.cleanupStaleState nas w env
        match c.res with
        | .error err => ⟨.error err, c.w, c.env, Ev.cleanupPass nas :: c.evs⟩
        | .ok _ =>
          let out := driver.watchLoop rest c.w c.env
          ⟨out.res, out.w, out.env, Ev.cleanupPass nas :: c.evs ++ out.evs⟩
    | _ => driver.watchLoop rest w env

/-- The watch step `driver.cleanupStaleStateContinuously`: build the
watch options from the version token and the previous error, open the
watch (the stream's events are supplied as a list) and consume it;
returns the options it opened the watch with alongside the loop's
result. -/
def driver.cleanupStaleStateContinuously (resourceVersion : Nat)
    (previousError : Option Err) (events : List WatchEvent) (w : World) (env : Env) :
    WatchOptions × DriverOut Unit :=
  (driver.watchOptions w.mirror.name resourceVersion previousError,
    driver.watchLoop events w env)

/-- One iteration of the supervisory loop `driver.CleanupStaleStateContinuously`:
run the resync step, then the watch step with the returned version token
and error (the Go empty-string token on a failed resync is the model's
`0`). -/
def driver.cleanupIteration (events : List WatchEvent) (w : World) (env : Env) :
    WatchOptions × DriverOut Unit :=
  let once := driver.cleanupStaleStateOnce w env
  match once.res with
  | .ok rv =>
    let cont := driver.cleanupStaleStateContinuously rv none events once.w once.env
    (cont.1, ⟨cont.2.res, cont.2.w, cont.2.env, once.evs ++ cont.2.evs⟩)
  | .error e =>
    let cont := driver.cleanupStaleStateContinuously 0 (some e) events once.w once.env
    (cont.1, ⟨cont.2.res, cont.2.w, cont.2.env, once.evs ++ cont.2.evs⟩)

/- Helper lemmas about the retry combinator. -/

theorem retryOnConflict_stop {α : Type} (body : World → Env → DriverOut α)
    (steps : Nat) (w : World) (env : Env)
    (h : ∀ e, (body w env).res = .error e → e ≠ Err.conflict) :
    retryOnConflict body (steps + 1) w env = body w env := by
  have hbody := h
  rcases hout : body w env with ⟨r, w1, env1, evs⟩
  cases r with
  | ok a => simp [retryOnConflict, hout]
  | error e =>
    have hne : e ≠ Err.conflict := by
      have := h e
      rw [hout] at this
      exact this rfl
    cases e <;> simp_all [retryOnConflict, hout]

/- Concrete sample inputs used by witnesses and counterexamples. -/

/-- A sample record: claim `A` allocated and prepared, claim `B` prepared
but no longer allocated (orphaned). -/
def sampleRecord : NasRecord :=
  { name := "node1", resourceVersion := 7, status := .ready,
    spec := { allocatedClaims := [("A", ⟨1⟩)],
              preparedClaims := [("A", ["gpu-A-0"]), ("B", ["gpu-B-0"])] } }

/-- A sample world whose Device State Manager agrees with the record. -/
def sampleWorld : World :=
  { server := sampleRecord, mirror := sampleRecord,
    devstate := { prepared := [("A", ["gpu-A-0"]), ("B", ["gpu-B-0"])],
                  cdiCache := [("A", ["gpu-A-0"]), ("B", ["gpu-B-0"])] } }

/-- C7: for every unprepare RPC request, `NodeUnprepareResource` returns a
successful empty acknowledgement and leaves every part of the state — the
record, the mirror, the Device State Manager, the schedule — unchanged,
performing no calls at all. -/
theorem nodeUnprepareResource_noop (w : World) (env : Env) :
    driver.NodeUnprepareResource w env = ⟨.ok (), w, env, []⟩ := rfl

/-- C9: on a record with no `PreparedClaims` entry for the claim,
`IsPrepared` (whose record refresh succeeds) returns not-prepared with no
device list and no error, and its only effect is that refresh: the record,
the Device State Manager and the schedule are untouched and the only call
performed is the record fetch. -/
theorem isPrepared_absent_no_mutation (w : World) (claimUID : ClaimUID)
    (h : mapLookup w.server.spec.preparedClaims claimUID = none) :
    driver.IsPrepared claimUID w Env.clean =
      ⟨.ok (false, []), { w with mirror := w.server }, Env.clean, [Ev.clientGet]⟩ := by
  simp [driver.IsPrepared, Client.Get, Env.clean, h]

/-- Witness for C9 at a concrete record with no entry for `"x"`. -/
theorem isPrepared_absent_no_mutation_witness :
    mapLookup sampleWorld.server.spec.preparedClaims "x" = none ∧
    driver.IsPrepared "x" sampleWorld Env.clean =
      ⟨.ok (false, []), { sampleWorld with mirror := sampleWorld.server }, Env.clean,
        [Ev.clientGet]⟩ :=
  ⟨by decide, isPrepared_absent_no_mutation sampleWorld "x" (by decide)⟩

/- Lock-usage lemmas. -/

theorem count_lock_unprepareAttempt (claimUID : ClaimUID) (w : World) (env : Env) :
    ((driver.unprepareAttempt claimUID w env).evs).count Ev.lockAcquire = 0 := by
  unfold driver.unprepareAttempt
  cases hg : (Client.Get w env).err with
  | some e => simp [hg]
  | none =>
    cases hp : (DeviceState.Unprepare (Client.Get w env).w.devstate (Client.Get w env).env claimUID).1 with
    | error e => simp [hg, hp]
    | ok u =>
      simp only [hg, hp]
      cases hu : (Client.Update _ _ _).err <;> simp [hu]

theorem count_lock_retry {α : Type} (body : World → Env → DriverOut α) (n : Nat)
    (hb : ∀ w env, ((body w env).evs).count Ev.lockAcquire = 0) (w : World) (env : Env) :
    ((retryOnConflict body n w env).evs).count Ev.lockAcquire = 0 := by
  induction n generalizing w env with
  | zero => simp [retryOnConflict]
  | succ n ih =>
    have hb0 := hb w env
    rcases hout : body w env with ⟨r, w1, env1, evs⟩
    rw [hout] at hb0
    cases r with
    | ok a => simp [retryOnConflict, hout, hb0]
    | error e =>
      cases e <;>
        by_cases hn : n = 0 <;> simp_all [retryOnConflict, hout, List.count_append, ih]

theorem count_lock_unprepare (claimUID : ClaimUID) (w : World) (env : Env) :
    ((driver.Unprepare claimUID w env).evs).count Ev.lockAcquire = 0 :=
  count_lock_retry _ _ (count_lock_unprepareAttempt claimUID) w env

theorem count_lock_runUnprepares (claims : List ClaimUID) (w : World) (env : Env) :
    ((driver.runUnprepares claims w env).2.2.2).count Ev.lockAcquire = 0 := by
  induction claims generalizing w env with
  | nil => simp [driver.runUnprepares]
  | cons c rest ih =>
    have hu := count_lock_unprepare c w env
    rcases hout : driver.Unprepare c w env with ⟨r, w1, env1, evs⟩
    rw [hout] at hu
    cases r <;> simp_all [driver.runUnprepares, hout, List.count_append, ih]

theorem count_lock_cleanupStaleState (nas : NasRecord) (w : World) (env : Env) :
    ((driver.cleanupStaleState nas w env).evs).count Ev.lockAcquire = 0 := by
  have h := count_lock_runUnprepares (driver.orphanedClaims nas) w env
  unfold driver.cleanupStaleState driver.cleanupClaimAllocations
  dsimp only
  split <;> simpa using h

theorem count_lock_isPrepared (claimUID : ClaimUID) (w : World) (env : Env) :
    ((driver.IsPrepared claimUID w env).evs).count Ev.lockAcquire = 0 := by
  unfold driver.IsPrepared
  cases hg : (Client.Get w env).err with
  | some e => simp [hg]
  | none =>
    cases hp : mapLookup (Client.Get w env).w.mirror.spec.preparedClaims claimUID <;>
      simp [hg, hp]

/-- Is an event a lock acquisition or release? -/
def Ev.isLockEv : Ev → Bool
  | .lockAcquire => true
  | .lockRelease => true
  | _ => false

theorem countPLock_unprepareAttempt (claimUID : ClaimUID) (w : World) (env : Env) :
    ((driver.unprepareAttempt claimUID w env).evs).countP Ev.isLockEv = 0 := by
  unfold driver.unprepareAttempt
  cases hg : (Client.Get w env).err with
  | some e => simp [hg, Ev.isLockEv]
  | none =>
    cases hp : (DeviceState.Unprepare (Client.Get w env).w.devstate (Client.Get w env).env claimUID).1 with
    | error e => simp [hg, hp, Ev.isLockEv]
    | ok u =>
      simp only [hg, hp]
      cases hu : (Client.Update _ _ _).err <;> simp [hu, Ev.isLockEv]

theorem countPLock_prepareAttempt (claimUID : ClaimUID) (w : World) (env : Env) :
    ((driver.prepareAttempt claimUID w env).evs).countP Ev.isLockEv = 0 := by
  unfold driver.prepareAttempt
  cases hg : (Client.Get w env).err with
  | some e => simp [hg, Ev.isLockEv]
  | none =>
    cases hp : (DeviceState.Prepare (Client.Get w env).w.devstate (Client.Get w env).env claimUID ((mapLookup (Client.Get w env).w.mirror.spec.allocatedClaims claimUID).getD AllocatedDevices.zero)).1 with
    | error e => simp [hg, hp, Ev.isLockEv]
    | ok devices =>
      simp only [hg, hp]
      cases hu : (Client.Update _ _ _).err <;> simp [hu, Ev.isLockEv]

theorem countPLock_retry {α : Type} (body : World → Env → DriverOut α) (n : Nat)
    (hb : ∀ w env, ((body w env).evs).countP Ev.isLockEv = 0) (w : World) (env : Env) :
    ((retryOnConflict body n w env).evs).countP Ev.isLockEv = 0 := by
  induction n generalizing w env with
  | zero => simp [retryOnConflict]
  | succ n ih =>
    have hb0 := hb w env
    rcases hout : body w env with ⟨r, w1, env1, evs⟩
    rw [hout] at hb0
    cases r with
    | ok a => simp [retryOnConflict, hout, hb0]
    | error e =>
      cases e <;>
        by_cases hn : n = 0 <;>
          simp_all [retryOnConflict, hout, List.countP_append] <;> exact ih w1 env1

theorem countPLock_unprepare (claimUID : ClaimUID) (w : World) (env : Env) :
    ((driver.Unprepare claimUID w env).evs).countP Ev.isLockEv = 0 :=
  countPLock_retry _ _ (countPLock_unprepareAttempt claimUID) w env

theorem countPLock_prepare (claimUID : ClaimUID) (w : World) (env : Env) :
    ((driver.Prepare claimUID w env).evs).countP Ev.isLockEv = 0 :=
  countPLock_retry _ _ (countPLock_prepareAttempt claimUID) w env

theorem countPLock_isPrepared (claimUID : ClaimUID) (w : World) (env : Env) :
    ((driver.IsPrepared claimUID w env).evs).countP Ev.isLockEv = 0 := by
  unfold driver.IsPrepared
  cases hg : (Client.Get w env).err with
  | some e => simp [hg, Ev.isLockEv]
  | none =>
    cases hp : mapLookup (Client.Get w env).w.mirror.spec.preparedClaims claimUID <;>
      simp [hg, hp, Ev.isLockEv]

theorem countPLock_runUnprepares (claims : List ClaimUID) (w : World) (env : Env) :
    ((driver.runUnprepares claims w env).2.2.2).countP Ev.isLockEv = 0 := by
  induction claims generalizing w env with
  | nil => simp [driver.runUnprepares]
  | cons c rest ih =>
    have hu := countPLock_unprepare c w env
    rcases hout : driver.Unprepare c w env with ⟨r, w1, env1, evs⟩
    rw [hout] at hu
    cases r <;>
      simp_all [driver.runUnprepares, hout, List.countP_append] <;> exact ih w1 env1

theorem countPLock_cleanupStaleState (nas : NasRecord) (w : World) (env : Env) :
    ((driver.cleanupStaleState nas w env).evs).countP Ev.isLockEv = 0 := by
  have h := countPLock_runUnprepares (driver.orphanedClaims nas) w env
  unfold driver.cleanupStaleState driver.cleanupClaimAllocations
  dsimp only
  split <;> simpa using h

theorem count_locks_eq_zero (l : List Ev) (h : l.countP Ev.isLockEv = 0) :
    l.count Ev.lockAcquire = 0 ∧ l.count Ev.lockRelease = 0 := by
  rw [List.countP_eq_zero] at h
  constructor <;>
    · rw [List.count_eq_zero]
      intro hmem
      have hfalse := h _ hmem
      simp [Ev.isLockEv] at hfalse

theorem countPLock_nodePrepareBody (claimUID : ClaimUID) (w : World) (env : Env) :
    ((driver.nodePrepareBody claimUID w env).evs).countP Ev.isLockEv = 0 := by
  unfold driver.nodePrepareBody
  have hip := countPLock_isPrepared claimUID w env
  rcases hout : driver.IsPrepared claimUID w env with ⟨r, w1, env1, evs⟩
  rw [hout] at hip
  simp only at hip
  cases r with
  | error e => simp [hout, hip]
  | ok p =>
    obtain ⟨b, devs⟩ := p
    cases b with
    | true => simp [hout, hip]
    | false =>
      simp [hout, List.countP_append, hip, countPLock_prepare claimUID w1 env1]

/-- C5 counterexample: a concrete execution of the public `Unprepare` path
— and of a cleanup pass that issues an `Unprepare` for the orphaned claim
`B` — performs its device-manager release without ever acquiring the
driver-wide lock, refuting the claim that every `Prepare`/`Unprepare`
execution holds it. -/
theorem unprepare_without_lock_cex :
    ((driver.Unprepare "B" sampleWorld Env.clean).evs).count Ev.lockAcquire = 0 ∧
    ((driver.Unprepare "B" sampleWorld Env.clean).evs).count (Ev.dsUnprepare "B") = 1 ∧
    ((driver.cleanupStaleState sampleWorld.server sampleWorld Env.clean).evs).count
      Ev.lockAcquire = 0 ∧
    ((driver.cleanupStaleState sampleWorld.server sampleWorld Env.clean).evs).count
      (Ev.dsUnprepare "B") = 1 := by
  refine ⟨?_, ?_, ?_, ?_⟩ <;> decide

theorem getLast_after_cons (a : Ev) (l : List Ev) :
    (a :: (l ++ [Ev.lockRelease])).getLast? = some Ev.lockRelease := by
  induction l generalizing a with
  | nil => rfl
  | cons b rest ih =>
    rw [List.cons_append, List.getLast?_cons_cons]
    exact ih b

/-- C5 amended: only the `NodePrepareResource` entry point takes the
driver-wide lock — its trace begins with exactly one acquisition and ends
with exactly one release; the `Prepare`, `Unprepare` and `IsPrepared`
methods, the cleanup pass — whose fan-out calls the public `Unprepare`
path — and `NodeUnprepareResource` produce no lock event at all. -/
theorem lock_usage_actual (claimUID : ClaimUID) (w : World) (env : Env)
    (nas : NasRecord) :
    ((driver.NodePrepareResource claimUID w env).evs).head? = some Ev.lockAcquire ∧
    ((driver.NodePrepareResource claimUID w env).evs).getLast? = some Ev.lockRelease ∧
    ((driver.Unprepare claimUID w env).evs).count Ev.lockAcquire = 0 ∧
    ((driver.IsPrepared claimUID w env).evs).count Ev.lockAcquire = 0 ∧
    ((driver.cleanupStaleState nas w env).evs).count Ev.lockAcquire = 0 ∧
    ((driver.Prepare claimUID w env).evs).count Ev.lockAcquire = 0 ∧
    ((driver.Prepare claimUID w env).evs).countP Ev.isLockEv = 0 ∧
    ((driver.Unprepare claimUID w env).evs).countP Ev.isLockEv = 0 ∧
    ((driver.IsPrepared claimUID w env).evs).countP Ev.isLockEv = 0 ∧
    ((driver.cleanupStaleState nas w env).evs).countP Ev.isLockEv = 0 ∧
    ((driver.NodeUnprepareResource w env).evs).countP Ev.isLockEv = 0 ∧
    ((driver.NodePrepareResource claimUID w env).evs).count Ev.lockAcquire = 1 ∧
    ((driver.NodePrepareResource claimUID w env).evs).count Ev.lockRelease = 1 := by
  obtain ⟨hba, hbr⟩ :=
    count_locks_eq_zero _ (countPLock_nodePrepareBody claimUID w env)
  refine ⟨?_, ?_, count_lock_unprepare claimUID w env,
    count_lock_isPrepared claimUID w env, count_lock_cleanupStaleState nas w env,
    (count_locks_eq_zero _ (countPLock_prepare claimUID w env)).1,
    countPLock_prepare claimUID w env,
    countPLock_unprepare claimUID w env,
    countPLock_isPrepared claimUID w env,
    countPLock_cleanupStaleState nas w env,
    rfl, ?_, ?_⟩
  · simp [driver.NodePrepareResource]
  · show (Ev.lockAcquire :: ((driver.nodePrepareBody claimUID w env).evs ++
      [Ev.lockRelease])).getLast? = some Ev.lockRelease
    exact getLast_after_cons _ _
  · show (Ev.lockAcquire :: ((driver.nodePrepareBody claimUID w env).evs ++
      [Ev.lockRelease])).count Ev.lockAcquire = 1
    simp [List.count_cons, List.count_append, hba]
  · show (Ev.lockAcquire :: ((driver.nodePrepareBody claimUID w env).evs ++
      [Ev.lockRelease])).count Ev.lockRelease = 1
    simp [List.count_cons, List.count_append, hbr]

/-- C10: for a claim UID absent from `AllocatedClaims` (and not already
reserved locally), the driver's `Prepare` does not itself detect the
missing allocation details: it still invokes the Device State Manager's
`Prepare`, passing the zero-value allocation details obtained from the Go
map index, and the resulting failure is the manager's own rejection of
those details. -/
theorem prepare_delegates_missing_allocation (w : World) (claimUID : ClaimUID)
    (hna : mapLookup w.server.spec.allocatedClaims claimUID = none)
    (hnp : mapLookup w.devstate.prepared claimUID = none) :
    (driver.Prepare claimUID w Env.clean).res = .error .invalidAlloc ∧
    Ev.dsPrepare claimUID AllocatedDevices.zero ∈
      (driver.Prepare claimUID w Env.clean).evs := by
  have hattempt : driver.prepareAttempt claimUID w Env.clean =
      ⟨.error .invalidAlloc, { w with mirror := w.server }, Env.clean,
        [Ev.clientGet, Ev.dsPrepare claimUID AllocatedDevices.zero]⟩ := by
    simp [driver.prepareAttempt, Client.Get, Env.clean, hna, hnp,
      DeviceState.Prepare, AllocatedDevices.zero]
  have hretry : driver.Prepare claimUID w Env.clean =
      driver.prepareAttempt claimUID w Env.clean := by
    show retryOnConflict (driver.prepareAttempt claimUID) (4 + 1) w Env.clean =
      driver.prepareAttempt claimUID w Env.clean
    refine retryOnConflict_stop _ 4 w Env.clean ?_
    intro e he
    rw [hattempt] at he
    cases he
    decide
  rw [hretry, hattempt]
  simp

/-- Witness for C10 at the concrete unallocated claim `"x"`. -/
theorem prepare_delegates_missing_allocation_witness :
    (mapLookup sampleWorld.server.spec.allocatedClaims "x" = none ∧
      mapLookup sampleWorld.devstate.prepared "x" = none) ∧
    ((driver.Prepare "x" sampleWorld Env.clean).res = .error .invalidAlloc ∧
      Ev.dsPrepare "x" AllocatedDevices.zero ∈
        (driver.Prepare "x" sampleWorld Env.clean).evs) :=
  ⟨⟨by decide, by decide⟩,
    prepare_delegates_missing_allocation sampleWorld "x" (by decide) (by decide)⟩

/-- C2: calling the prepare entry point twice for the same claim UID (with
no interfering failures) returns the same device list both times and
reserves devices in the Device State Manager exactly once; the second call
finds the claim in `PreparedClaims` after its re-fetch and returns the
cached device list with no Device State Manager `Prepare` invocation (its
only call is the record fetch). -/
theorem nodePrepare_idempotent (w : World) (claimUID : ClaimUID) (a : AllocatedDevices)
    (h1 : mapLookup w.server.spec.preparedClaims claimUID = none)
    (h2 : mapLookup w.server.spec.allocatedClaims claimUID = some a)
    (h3 : a.gpuCount ≠ 0)
    (h4 : mapLookup w.devstate.prepared claimUID = none) :
    (driver.NodePrepareResource claimUID w Env.clean).res =
      .ok (allocDeviceIDs claimUID a) ∧
    (driver.NodePrepareResource claimUID
        (driver.NodePrepareResource claimUID w Env.clean).w
        (driver.NodePrepareResource claimUID w Env.clean).env).res =
      .ok (allocDeviceIDs claimUID a) ∧
    (driver.NodePrepareResource claimUID
        (driver.NodePrepareResource claimUID w Env.clean).w
        (driver.NodePrepareResource claimUID w Env.clean).env).evs =
      [Ev.lockAcquire, Ev.clientGet, Ev.lockRelease] ∧
    ((driver.NodePrepareResource claimUID w Env.clean).evs ++
      (driver.NodePrepareResource claimUID
          (driver.NodePrepareResource claimUID w Env.clean).w
          (driver.NodePrepareResource claimUID w Env.clean).env).evs).countP
      Ev.isDsPrepare = 1 := by
  have hA : driver.IsPrepared claimUID w Env.clean =
      ⟨.ok (false, []), { w with mirror := w.server }, Env.clean, [Ev.clientGet]⟩ := by
    simp [driver.IsPrepared, Client.Get, Env.clean, h1]
  have hB : driver.prepareAttempt claimUID { w with mirror := w.server } Env.clean =
      ⟨.ok (allocDeviceIDs claimUID a),
        { server :=
            { w.server with
                spec := ⟨w.server.spec.allocatedClaims,
                  mapInsert claimUID (allocDeviceIDs claimUID a) w.devstate.prepared⟩,
                resourceVersion := w.server.resourceVersion + 1 },
          mirror := w.server,
          devstate :=
            ⟨mapInsert claimUID (allocDeviceIDs claimUID a) w.devstate.prepared,
              mapInsert claimUID (allocDeviceIDs claimUID a) w.devstate.cdiCache⟩ },
        Env.clean,
        [Ev.clientGet, Ev.dsPrepare claimUID a, Ev.clientUpdate]⟩ := by
    simp [driver.prepareAttempt, Client.Get, Client.Update, Env.clean, h2, h4, h3,
      DeviceState.Prepare, DeviceState.GetUpdatedSpec]
  have hBretry : driver.Prepare claimUID { w with mirror := w.server } Env.clean =
      driver.prepareAttempt claimUID { w with mirror := w.server } Env.clean := by
    show retryOnConflict (driver.prepareAttempt claimUID) (4 + 1)
        { w with mirror := w.server } Env.clean =
      driver.prepareAttempt claimUID { w with mirror := w.server } Env.clean
    refine retryOnConflict_stop _ 4 _ Env.clean ?_
    intro e he
    rw [hB] at he
    simp at he
  have hFirst : driver.NodePrepareResource claimUID w Env.clean =
      ⟨.ok (allocDeviceIDs claimUID a),
        { server :=
            { w.server with
                spec := ⟨w.server.spec.allocatedClaims,
                  mapInsert claimUID (allocDeviceIDs claimUID a) w.devstate.prepared⟩,
                resourceVersion := w.server.resourceVersion + 1 },
          mirror := w.server,
          devstate :=
            ⟨mapInsert claimUID (allocDeviceIDs claimUID a) w.devstate.prepared,
              mapInsert claimUID (allocDeviceIDs claimUID a) w.devstate.cdiCache⟩ },
        Env.clean,
        [Ev.lockAcquire, Ev.clientGet, Ev.clientGet, Ev.dsPrepare claimUID a,
          Ev.clientUpdate, Ev.lockRelease]⟩ := by
    rw [driver.NodePrepareResource, driver.nodePrepareBody, hA]
    simp only [hBretry, hB]
    simp
  rw [hFirst]
  have hSecond : driver.NodePrepareResource claimUID
      { server :=
          { w.server with
              spec := ⟨w.server.spec.allocatedClaims,
                mapInsert claimUID (allocDeviceIDs claimUID a) w.devstate.prepared⟩,
              resourceVersion := w.server.resourceVersion + 1 },
        mirror := w.server,
        devstate :=
          ⟨mapInsert claimUID (allocDeviceIDs claimUID a) w.devstate.prepared,
            mapInsert claimUID (allocDeviceIDs claimUID a) w.devstate.cdiCache⟩ }
      Env.clean =
      ⟨.ok (allocDeviceIDs claimUID a),
        { server :=
            { w.server with
                spec := ⟨w.server.spec.allocatedClaims,
                  mapInsert claimUID (allocDeviceIDs claimUID a) w.devstate.prepared⟩,
                resourceVersion := w.server.resourceVersion + 1 },
          mirror :=
            { w.server with
                spec := ⟨w.server.spec.allocatedClaims,
                  mapInsert claimUID (allocDeviceIDs claimUID a) w.devstate.prepared⟩,
                resourceVersion := w.server.resourceVersion + 1 },
          devstate :=
            ⟨mapInsert claimUID (allocDeviceIDs claimUID a) w.devstate.prepared,
              mapInsert claimUID (allocDeviceIDs claimUID a) w.devstate.cdiCache⟩ },
        Env.clean,
        [Ev.lockAcquire, Ev.clientGet, Ev.lockRelease]⟩ := by
    rw [driver.NodePrepareResource, driver.nodePrepareBody, driver.IsPrepared]
    simp [Client.Get, Env.clean, DeviceState.GetClaimDevices]
  rw [hSecond]
  refine ⟨rfl, rfl, rfl, ?_⟩
  simp [List.countP_cons, Ev.isDsPrepare]

/-- A second sample world: claim `A` allocated and prepared, claim `C`
allocated (2 devices) but not yet prepared. -/
def sampleWorld2 : World :=
  { server :=
      { name := "node1", resourceVersion := 3, status := .ready,
        spec := { allocatedClaims := [("A", ⟨1⟩), ("C", ⟨2⟩)],
                  preparedClaims := [("A", ["gpu-A-0"])] } },
    mirror :=
      { name := "node1", resourceVersion := 3, status := .ready,
        spec := { allocatedClaims := [("A", ⟨1⟩), ("C", ⟨2⟩)],
                  preparedClaims := [("A", ["gpu-A-0"])] } },
    devstate := { prepared := [("A", ["gpu-A-0"])], cdiCache := [("A", ["gpu-A-0"])] } }

/-- Witness for C2 at the concrete allocated-but-unprepared claim `"C"`. -/
theorem nodePrepare_idempotent_witness :
    (mapLookup sampleWorld2.server.spec.preparedClaims "C" = none ∧
      mapLookup sampleWorld2.server.spec.allocatedClaims "C" = some ⟨2⟩ ∧
      (⟨2⟩ : AllocatedDevices).gpuCount ≠ 0 ∧
      mapLookup sampleWorld2.devstate.prepared "C" = none) ∧
    ((driver.NodePrepareResource "C" sampleWorld2 Env.clean).res =
        .ok (allocDeviceIDs "C" ⟨2⟩) ∧
      (driver.NodePrepareResource "C"
          (driver.NodePrepareResource "C" sampleWorld2 Env.clean).w
          (driver.NodePrepareResource "C" sampleWorld2 Env.clean).env).res =
        .ok (allocDeviceIDs "C" ⟨2⟩) ∧
      (driver.NodePrepareResource "C"
          (driver.NodePrepareResource "C" sampleWorld2 Env.clean).w
          (driver.NodePrepareResource "C" sampleWorld2 Env.clean).env).evs =
        [Ev.lockAcquire, Ev.clientGet, Ev.lockRelease] ∧
      ((driver.NodePrepareResource "C" sampleWorld2 Env.clean).evs ++
        (driver.NodePrepareResource "C"
            (driver.NodePrepareResource "C" sampleWorld2 Env.clean).w
            (driver.NodePrepareResource "C" sampleWorld2 Env.clean).env).evs).countP
        Ev.isDsPrepare = 1) :=
  ⟨⟨by decide, by decide, by decide, by decide⟩,
    nodePrepare_idempotent sampleWorld2 "C" ⟨2⟩ (by decide) (by decide) (by decide)
      (by decide)⟩

/- C4: retry exhaustion. -/

/-- An environment whose update calls follow the given outcome schedule and
everything else succeeds. -/
def conflictEnv (l : List (Option Err)) : Env :=
  { Env.clean with updateResults := l }

theorem retryOnConflict_one_conflict {α : Type} (body : World → Env → DriverOut α)
    (w : World) (env : Env) (w1 : World) (env1 : Env) (evs : List Ev)
    (h : body w env = ⟨.error .conflict, w1, env1, evs⟩) :
    retryOnConflict body 1 w env = ⟨.error .conflict, w1, env1, evs⟩ := by
  conv_lhs => rw [show (1 : Nat) = 0 + 1 from rfl, retryOnConflict]
  simp [h]

theorem retryOnConflict_step_conflict {α : Type} (body : World → Env → DriverOut α)
    (n : Nat) (w : World) (env : Env) (w1 : World) (env1 : Env) (evs : List Ev)
    (h : body w env = ⟨.error .conflict, w1, env1, evs⟩) :
    retryOnConflict body (n + 1 + 1) w env =
      ⟨(retryOnConflict body (n + 1) w1 env1).res,
        (retryOnConflict body (n + 1) w1 env1).w,
        (retryOnConflict body (n + 1) w1 env1).env,
        evs ++ (retryOnConflict body (n + 1) w1 env1).evs⟩ := by
  conv_lhs => rw [retryOnConflict]
  simp [h]

theorem retryOnConflict_exhaust_steady {α : Type} (body : World → Env → DriverOut α)
    (w1 : World) (ev3 : List Ev)
    (hsteady : ∀ l, body w1 (conflictEnv (some Err.conflict :: l)) =
      ⟨.error .conflict, w1, conflictEnv l, ev3⟩) :
    ∀ n, ∃ evs,
      retryOnConflict body (n + 1) w1
        (conflictEnv (List.replicate (n + 1) (some Err.conflict))) =
      ⟨.error .conflict, w1, conflictEnv [], evs⟩ := by
  intro n
  induction n with
  | zero =>
    exact ⟨ev3, retryOnConflict_one_conflict body w1 _ w1 (conflictEnv []) ev3 (hsteady [])⟩
  | succ n ih =>
    obtain ⟨evs, hevs⟩ := ih
    refine ⟨ev3 ++ evs, ?_⟩
    have hrep : List.replicate (n + 1 + 1) (some Err.conflict) =
        some Err.conflict :: List.replicate (n + 1) (some Err.conflict) := rfl
    rw [hrep]
    rw [retryOnConflict_step_conflict body n w1 _ w1
      (conflictEnv (List.replicate (n + 1) (some Err.conflict))) ev3 (hsteady _)]
    rw [hevs]

theorem retryOnConflict_exhaust {α : Type} (body : World → Env → DriverOut α)
    (w0 w1 : World) (ev3 : List Ev)
    (hfirst : ∀ l, body w0 (conflictEnv (some Err.conflict :: l)) =
      ⟨.error .conflict, w1, conflictEnv l, ev3⟩)
    (hsteady : ∀ l, body w1 (conflictEnv (some Err.conflict :: l)) =
      ⟨.error .conflict, w1, conflictEnv l, ev3⟩) :
    ∀ n, ∃ evs,
      retryOnConflict body (n + 1) w0
        (conflictEnv (List.replicate (n + 1) (some Err.conflict))) =
      ⟨.error .conflict, w1, conflictEnv [], evs⟩ := by
  intro n
  cases n with
  | zero =>
    exact ⟨ev3, retryOnConflict_one_conflict body w0 _ w1 (conflictEnv []) ev3 (hfirst [])⟩
  | succ n =>
    obtain ⟨evs, hevs⟩ := retryOnConflict_exhaust_steady body w1 ev3 hsteady n
    refine ⟨ev3 ++ evs, ?_⟩
    have hrep : List.replicate (n + 1 + 1) (some Err.conflict) =
        some Err.conflict :: List.replicate (n + 1) (some Err.conflict) := rfl
    rw [hrep]
    rw [retryOnConflict_step_conflict body n w0 _ w1
      (conflictEnv (List.replicate (n + 1) (some Err.conflict))) ev3 (hfirst _)]
    rw [hevs]

/-- C4 counterexample: with every update attempt failing on a conflict,
`Prepare` for the allocated claim `"C"` fails after the retry budget — but
the device reservation made by the Device State Manager on the first
attempt is still present in its in-memory prepared state afterwards, while
the record never came to mention the claim: the reservation IS left
stranded, refuting the claim's "rolled back or never committed". -/
theorem prepare_retry_exhaustion_cex :
    (driver.Prepare "C" sampleWorld2
        (conflictEnv (List.replicate 5 (some Err.conflict)))).res =
      .error .conflict ∧
    mapLookup (driver.Prepare "C" sampleWorld2
        (conflictEnv (List.replicate 5 (some Err.conflict)))).w.devstate.prepared
      "C" = some ["gpu-C-0", "gpu-C-1"] ∧
    mapLookup (driver.Prepare "C" sampleWorld2
        (conflictEnv (List.replicate 5 (some Err.conflict)))).w.server.spec.preparedClaims
      "C" = none :=
  ⟨rfl, rfl, rfl⟩

/-- C4 amended: if every update attempt of `Prepare` up to the retry budget
fails with a conflict error, the operation fails (returns the conflict
error, hence no device list) and the record is left untouched — but the
device reservation committed by the Device State Manager's `Prepare` on the
first attempt remains in the manager's in-memory prepared state; it is not
rolled back. -/
theorem prepare_retry_exhaustion_keeps_reservation (w : World)
    (claimUID : ClaimUID) (a : AllocatedDevices)
    (h2 : mapLookup w.server.spec.allocatedClaims claimUID = some a)
    (h3 : a.gpuCount ≠ 0)
    (h4 : mapLookup w.devstate.prepared claimUID = none) :
    (driver.Prepare claimUID w
        (conflictEnv (List.replicate defaultRetrySteps (some Err.conflict)))).res =
      .error .conflict ∧
    (driver.Prepare claimUID w
        (conflictEnv (List.replicate defaultRetrySteps (some Err.conflict)))).w.server =
      w.server ∧
    mapLookup (driver.Prepare claimUID w
        (conflictEnv
          (List.replicate defaultRetrySteps (some Err.conflict)))).w.devstate.prepared
      claimUID = some (allocDeviceIDs claimUID a) := by
  have hfirst : ∀ l, driver.prepareAttempt claimUID w
      (conflictEnv (some Err.conflict :: l)) =
      ⟨.error .conflict,
        { server := w.server, mirror := w.server,
          devstate :=
            ⟨mapInsert claimUID (allocDeviceIDs claimUID a) w.devstate.prepared,
              mapInsert claimUID (allocDeviceIDs claimUID a) w.devstate.cdiCache⟩ },
        conflictEnv l,
        [Ev.clientGet, Ev.dsPrepare claimUID a, Ev.clientUpdate]⟩ := by
    intro l
    simp [driver.prepareAttempt, Client.Get, Client.Update, conflictEnv, Env.clean,
      h2, h4, h3, DeviceState.Prepare, DeviceState.GetUpdatedSpec]
  have hsteady : ∀ l, driver.prepareAttempt claimUID
      { server := w.server, mirror := w.server,
        devstate :=
          ⟨mapInsert claimUID (allocDeviceIDs claimUID a) w.devstate.prepared,
            mapInsert claimUID (allocDeviceIDs claimUID a) w.devstate.cdiCache⟩ }
      (conflictEnv (some Err.conflict :: l)) =
      ⟨.error .conflict,
        { server := w.server, mirror := w.server,
          devstate :=
            ⟨mapInsert claimUID (allocDeviceIDs claimUID a) w.devstate.prepared,
              mapInsert claimUID (allocDeviceIDs claimUID a) w.devstate.cdiCache⟩ },
        conflictEnv l,
        [Ev.clientGet, Ev.dsPrepare claimUID a, Ev.clientUpdate]⟩ := by
    intro l
    simp [driver.prepareAttempt, Client.Get, Client.Update, conflictEnv, Env.clean,
      h2, DeviceState.Prepare]
  obtain ⟨evs, heq⟩ :=
    retryOnConflict_exhaust (driver.prepareAttempt claimUID) w
      { server := w.server, mirror := w.server,
        devstate :=
          ⟨mapInsert claimUID (allocDeviceIDs claimUID a) w.devstate.prepared,
            mapInsert claimUID (allocDeviceIDs claimUID a) w.devstate.cdiCache⟩ }
      [Ev.clientGet, Ev.dsPrepare claimUID a, Ev.clientUpdate] hfirst hsteady 4
  have heq5 : driver.Prepare claimUID w
      (conflictEnv (List.replicate defaultRetrySteps (some Err.conflict))) =
      ⟨.error .conflict,
        { server := w.server, mirror := w.server,
          devstate :=
            ⟨mapInsert claimUID (allocDeviceIDs claimUID a) w.devstate.prepared,
              mapInsert claimUID (allocDeviceIDs claimUID a) w.devstate.cdiCache⟩ },
        conflictEnv [], evs⟩ := heq
  rw [heq5]
  exact ⟨rfl, rfl, by simp⟩

/-- Witness for the amended C4 theorem at the concrete claim `"C"`. -/
theorem prepare_retry_exhaustion_keeps_reservation_witness :
    (mapLookup sampleWorld2.server.spec.allocatedClaims "C" = some ⟨2⟩ ∧
      (⟨2⟩ : AllocatedDevices).gpuCount ≠ 0 ∧
      mapLookup sampleWorld2.devstate.prepared "C" = none) ∧
    ((driver.Prepare "C" sampleWorld2
        (conflictEnv (List.replicate defaultRetrySteps (some Err.conflict)))).res =
      .error .conflict ∧
    (driver.Prepare "C" sampleWorld2
        (conflictEnv (List.replicate defaultRetrySteps (some Err.conflict)))).w.server =
      sampleWorld2.server ∧
    mapLookup (driver.Prepare "C" sampleWorld2
        (conflictEnv
          (List.replicate defaultRetrySteps (some Err.conflict)))).w.devstate.prepared
      "C" = some (allocDeviceIDs "C" ⟨2⟩)) :=
  ⟨⟨by decide, by decide, by decide⟩,
    prepare_retry_exhaustion_keeps_reservation sampleWorld2 "C" ⟨2⟩ (by decide)
      (by decide) (by decide)⟩

/- C1/C3: the cleanup fan-out. -/

/-- An environment in which the Device State Manager's `Unprepare` fails
exactly for the claims in `F` and everything else succeeds. -/
def failEnv (F : List ClaimUID) : Env :=
  { Env.clean with dsUnprepareFails := F }

theorem unprepare_failEnv_fail (c : ClaimUID) (F : List ClaimUID) (w : World)
    (hc : c ∈ F) :
    driver.Unprepare c w (failEnv F) =
      ⟨.error .deviceError, { w with mirror := w.server }, failEnv F,
        [Ev.clientGet, Ev.dsUnprepare c]⟩ := by
  have hatt : driver.unprepareAttempt c w (failEnv F) =
      ⟨.error .deviceError, { w with mirror := w.server }, failEnv F,
        [Ev.clientGet, Ev.dsUnprepare c]⟩ := by
    simp [driver.unprepareAttempt, Client.Get, failEnv, Env.clean,
      DeviceState.Unprepare, hc]
  have hstop : driver.Unprepare c w (failEnv F) =
      driver.unprepareAttempt c w (failEnv F) := by
    show retryOnConflict (driver.unprepareAttempt c) (4 + 1) w (failEnv F) =
      driver.unprepareAttempt c w (failEnv F)
    refine retryOnConflict_stop _ 4 w (failEnv F) ?_
    intro e he
    rw [hatt] at he
    cases he
    decide
  rw [hstop, hatt]

theorem unprepare_failEnv_ok (c : ClaimUID) (F : List ClaimUID) (w : World)
    (hc : c ∉ F) :
    driver.Unprepare c w (failEnv F) =
      ⟨.ok (),
        { server :=
            { w.server with
                spec := ⟨w.server.spec.allocatedClaims, mapErase c w.devstate.prepared⟩,
                resourceVersion := w.server.resourceVersion + 1 },
          mirror := w.server,
          devstate := ⟨mapErase c w.devstate.prepared, mapErase c w.devstate.cdiCache⟩ },
        failEnv F,
        [Ev.clientGet, Ev.dsUnprepare c, Ev.clientUpdate]⟩ := by
  have hatt : driver.unprepareAttempt c w (failEnv F) =
      ⟨.ok (),
        { server :=
            { w.server with
                spec := ⟨w.server.spec.allocatedClaims, mapErase c w.devstate.prepared⟩,
                resourceVersion := w.server.resourceVersion + 1 },
          mirror := w.server,
          devstate := ⟨mapErase c w.devstate.prepared, mapErase c w.devstate.cdiCache⟩ },
        failEnv F,
        [Ev.clientGet, Ev.dsUnprepare c, Ev.clientUpdate]⟩ := by
    simp [driver.unprepareAttempt, Client.Get, Client.Update, failEnv, Env.clean,
      DeviceState.Unprepare, DeviceState.GetUpdatedSpec, hc]
  have hstop : driver.Unprepare c w (failEnv F) =
      driver.unprepareAttempt c w (failEnv F) := by
    show retryOnConflict (driver.unprepareAttempt c) (4 + 1) w (failEnv F) =
      driver.unprepareAttempt c w (failEnv F)
    refine retryOnConflict_stop _ 4 w (failEnv F) ?_
    intro e he
    rw [hatt] at he
    simp at he
  rw [hstop, hatt]

/-- The master lemma about the sequential model of the unprepare fan-out:
starting from a world whose Device State Manager agrees with the record,
one error is reported per failing unit, coherence and the allocated map
are preserved, the record's `PreparedClaims` loses exactly the
successfully-unprepared claims, every unit issues its device-manager
release attempt, and the schedule is not consumed. -/
theorem runUnprepares_failEnv (F : List ClaimUID) (cs : List ClaimUID) (w : World)
    (hco : w.devstate.prepared = w.server.spec.preparedClaims) :
    (driver.runUnprepares cs w (failEnv F)).1.length =
      cs.countP (fun c => decide (c ∈ F)) ∧
    (driver.runUnprepares cs w (failEnv F)).2.1.devstate.prepared =
      (driver.runUnprepares cs w (failEnv F)).2.1.server.spec.preparedClaims ∧
    (driver.runUnprepares cs w (failEnv F)).2.1.server.spec.allocatedClaims =
      w.server.spec.allocatedClaims ∧
    (∀ x, mapLookup (driver.runUnprepares cs w (failEnv F)).2.1.server.spec.preparedClaims x =
      if x ∈ cs ∧ x ∉ F then none else mapLookup w.server.spec.preparedClaims x) ∧
    (∀ x, ((driver.runUnprepares cs w (failEnv F)).2.2.2).count (Ev.dsUnprepare x) =
      cs.count x) ∧
    (driver.runUnprepares cs w (failEnv F)).2.2.1 = failEnv F := by
  induction cs generalizing w with
  | nil =>
    refine ⟨rfl, hco, rfl, ?_, ?_, rfl⟩
    · intro x
      simp [driver.runUnprepares]
    · intro x
      simp [driver.runUnprepares]
  | cons c rest ih =>
    by_cases hc : c ∈ F
    · have hstep := unprepare_failEnv_fail c F w hc
      have hco1 : ({ w with mirror := w.server } : World).devstate.prepared =
          ({ w with mirror := w.server } : World).server.spec.preparedClaims := hco
      obtain ⟨ih1, ih2, ih3, ih4, ih5, ih6⟩ := ih { w with mirror := w.server } hco1
      refine ⟨?_, ?_, ?_, ?_, ?_, ?_⟩
      · simp [driver.runUnprepares, hstep, List.countP_cons, hc, ih1]
      · simp only [driver.runUnprepares, hstep]
        exact ih2
      · simp only [driver.runUnprepares, hstep]
        exact ih3
      · intro x
        simp only [driver.runUnprepares, hstep]
        rw [ih4 x]
        by_cases hx : x = c
        · subst hx
          simp [hc]
        · simp [hx, Ne.symm hx]
      · intro x
        simp only [driver.runUnprepares, hstep]
        by_cases hx : x = c
        · subst hx
          simp [List.count_append, List.count_cons, ih5 x]
        · simp [List.count_append, List.count_cons, ih5 x, hx, Ne.symm hx]
      · simp only [driver.runUnprepares, hstep]
        exact ih6
    · have hstep := unprepare_failEnv_ok c F w hc
      have hco1 : mapErase c w.devstate.prepared = mapErase c w.devstate.prepared := rfl
      obtain ⟨ih1, ih2, ih3, ih4, ih5, ih6⟩ := ih
        { server :=
            { w.server with
                spec := ⟨w.server.spec.allocatedClaims, mapErase c w.devstate.prepared⟩,
                resourceVersion := w.server.resourceVersion + 1 },
          mirror := w.server,
          devstate := ⟨mapErase c w.devstate.prepared, mapErase c w.devstate.cdiCache⟩ }
        rfl
      refine ⟨?_, ?_, ?_, ?_, ?_, ?_⟩
      · simp [driver.runUnprepares, hstep, List.countP_cons, hc, ih1]
      · simp only [driver.runUnprepares, hstep]
        exact ih2
      · simp only [driver.runUnprepares, hstep]
        exact ih3
      · intro x
        simp only [driver.runUnprepares, hstep]
        rw [ih4 x]
        by_cases hx : x = c
        · subst hx
          simp [hc, hco]
        · by_cases hr : x ∈ rest ∧ x ∉ F
          · simp [hr, hx]
          · simp only [hr, if_false]
            rw [hco]
            simp [hx, Ne.symm hx, hr]
      · intro x
        simp only [driver.runUnprepares, hstep]
        by_cases hx : x = c
        · subst hx
          simp [List.count_append, List.count_cons, ih5 x]
        · simp [List.count_append, List.count_cons, ih5 x, hx, Ne.symm hx]
      · simp only [driver.runUnprepares, hstep]
        exact ih6

theorem mem_orphanedClaims (nas : NasRecord) (c : ClaimUID) :
    c ∈ driver.orphanedClaims nas ↔
      (mapLookup nas.spec.preparedClaims c).isSome ∧
        (mapLookup nas.spec.allocatedClaims c).isNone := by
  unfold driver.orphanedClaims
  rw [List.mem_filter, mem_keys_iff_lookup_isSome]

theorem nodup_orphanedClaims (nas : NasRecord)
    (h : (nas.spec.preparedClaims.map Prod.fst).Nodup) :
    (driver.orphanedClaims nas).Nodup :=
  h.filter _

theorem cleanupStaleState_eq (nas : NasRecord) (w : World) (env : Env) :
    driver.cleanupStaleState nas w env =
      if (driver.runUnprepares (driver.orphanedClaims nas) w env).1.length = 0
      then ⟨.ok (), (driver.runUnprepares (driver.orphanedClaims nas) w env).2.1,
        (driver.runUnprepares (driver.orphanedClaims nas) w env).2.2.1,
        (driver.runUnprepares (driver.orphanedClaims nas) w env).2.2.2⟩
      else ⟨.error
          (.aggregate ((driver.runUnprepares (driver.orphanedClaims nas) w env).1.length)),
        (driver.runUnprepares (driver.orphanedClaims nas) w env).2.1,
        (driver.runUnprepares (driver.orphanedClaims nas) w env).2.2.1,
        (driver.runUnprepares (driver.orphanedClaims nas) w env).2.2.2⟩ := by
  simp [driver.cleanupStaleState, driver.cleanupClaimAllocations,
    driver.cleanupCDIFiles, driver.cleanupMpsControlDaemonArtifacts]

/-- C1: over any record snapshot (the current record, with the Device State
Manager in agreement and Go-map keys distinct), one cleanup pass in which
every unprepare succeeds issues exactly one `Unprepare(claimUID)` unit for
each claim UID in `PreparedClaims` and not in `AllocatedClaims` and for no
other claim UID; afterwards the orphaned claims are gone from
`PreparedClaims`, claims present in both maps keep their entries untouched,
and the Device State Manager no longer reports reservations for the
orphans. -/
theorem cleanup_orphans_exact_and_converge (w : World)
    (hnodup : (w.server.spec.preparedClaims.map Prod.fst).Nodup)
    (hco : w.devstate.prepared = w.server.spec.preparedClaims) :
    (driver.cleanupStaleState w.server w Env.clean).res = .ok () ∧
    (∀ c, ((driver.cleanupStaleState w.server w Env.clean).evs).count
        (Ev.dsUnprepare c) =
      if (mapLookup w.server.spec.preparedClaims c).isSome ∧
          (mapLookup w.server.spec.allocatedClaims c).isNone
      then 1 else 0) ∧
    (∀ c, mapLookup
        (driver.cleanupStaleState w.server w Env.clean).w.server.spec.preparedClaims c =
      if (mapLookup w.server.spec.allocatedClaims c).isSome
      then mapLookup w.server.spec.preparedClaims c else none) ∧
    (∀ c, (mapLookup w.server.spec.allocatedClaims c).isNone →
      mapLookup (driver.cleanupStaleState w.server w Env.clean).w.devstate.prepared c =
        none) := by
  have hEnv : Env.clean = failEnv [] := rfl
  rw [hEnv]
  obtain ⟨hm1, hm2, hm3, hm4, hm5, hm6⟩ :=
    runUnprepares_failEnv [] (driver.orphanedClaims w.server) w hco
  have hzero : (driver.runUnprepares (driver.orphanedClaims w.server) w
      (failEnv [])).1.length = 0 := by
    rw [hm1]
    simp
  rw [cleanupStaleState_eq, if_pos hzero]
  refine ⟨rfl, ?_, ?_, ?_⟩
  · intro c
    show ((driver.runUnprepares (driver.orphanedClaims w.server) w
        (failEnv [])).2.2.2).count (Ev.dsUnprepare c) = _
    rw [hm5 c]
    by_cases hc : c ∈ driver.orphanedClaims w.server
    · rw [List.count_eq_one_of_mem (nodup_orphanedClaims w.server hnodup) hc]
      rw [mem_orphanedClaims] at hc
      simp [hc.1, hc.2]
    · rw [List.count_eq_zero_of_not_mem hc]
      rw [mem_orphanedClaims] at hc
      by_cases h1 : (mapLookup w.server.spec.preparedClaims c).isSome <;>
        by_cases h2 : (mapLookup w.server.spec.allocatedClaims c).isNone <;>
        simp_all
  · intro c
    show mapLookup (driver.runUnprepares (driver.orphanedClaims w.server) w
        (failEnv [])).2.1.server.spec.preparedClaims c = _
    rw [hm4 c]
    by_cases hc : c ∈ driver.orphanedClaims w.server
    · have horph := (mem_orphanedClaims w.server c).mp hc
      simp [hc, horph.2, Option.isNone_iff_eq_none.mp horph.2]
    · rw [mem_orphanedClaims] at hc
      by_cases h1 : (mapLookup w.server.spec.preparedClaims c).isSome <;>
        by_cases h2 : (mapLookup w.server.spec.allocatedClaims c).isSome <;>
        simp_all [Option.isNone_iff_eq_none, Option.isSome_iff_exists,
          Option.eq_none_iff_forall_not_mem, mem_orphanedClaims]
  · intro c hna
    show mapLookup (driver.runUnprepares (driver.orphanedClaims w.server) w
        (failEnv [])).2.1.devstate.prepared c = none
    rw [hm2, hm4 c]
    by_cases hc : c ∈ driver.orphanedClaims w.server
    · simp [hc]
    · rw [mem_orphanedClaims] at hc
      have hp : mapLookup w.server.spec.preparedClaims c = none := by
        by_cases h1 : (mapLookup w.server.spec.preparedClaims c).isSome
        · exact absurd ⟨h1, hna⟩ hc
        · simpa [Option.isSome_iff_ne_none] using h1
      simp [hp]

/-- Witness for C1 on the concrete record with orphaned claim `"B"`. -/
theorem cleanup_orphans_exact_and_converge_witness :
    ((sampleWorld.server.spec.preparedClaims.map Prod.fst).Nodup ∧
      sampleWorld.devstate.prepared = sampleWorld.server.spec.preparedClaims) ∧
    ((driver.cleanupStaleState sampleWorld.server sampleWorld Env.clean).res = .ok () ∧
      ((driver.cleanupStaleState sampleWorld.server sampleWorld Env.clean).evs).count
        (Ev.dsUnprepare "B") = 1 ∧
      ((driver.cleanupStaleState sampleWorld.server sampleWorld Env.clean).evs).count
        (Ev.dsUnprepare "A") = 0 ∧
      mapLookup (driver.cleanupStaleState sampleWorld.server sampleWorld
        Env.clean).w.server.spec.preparedClaims "A" = some ["gpu-A-0"] ∧
      mapLookup (driver.cleanupStaleState sampleWorld.server sampleWorld
        Env.clean).w.server.spec.preparedClaims "B" = none ∧
      mapLookup (driver.cleanupStaleState sampleWorld.server sampleWorld
        Env.clean).w.devstate.prepared "B" = none) := by
  have h := cleanup_orphans_exact_and_converge sampleWorld (by decide) (by decide)
  refine ⟨⟨by decide, by decide⟩, h.1, ?_, ?_, ?_, ?_, h.2.2.2 "B" (by decide)⟩
  · have hB := h.2.1 "B"
    rw [if_pos (by decide)] at hB
    exact hB
  · have hA := h.2.1 "A"
    rw [if_neg (by decide)] at hA
    exact hA
  · have hA := h.2.2.1 "A"
    rw [if_pos (by decide)] at hA
    rw [hA]
    decide
  · have hB := h.2.2.1 "B"
    rw [if_neg (by decide)] at hB
    exact hB

/-- C3: a cleanup pass runs every spawned unit across the three categories
to completion (each orphan's device-manager release is attempted exactly as
spawned, and a succeeding unit's removal lands even when other units fail),
and it returns an error if and only if the total number of reported errors
is nonzero, in which case the single returned error carries that count;
with no errors it returns success. -/
theorem cleanup_pass_error_aggregation (w : World) (F : List ClaimUID)
    (hco : w.devstate.prepared = w.server.spec.preparedClaims) :
    ((driver.cleanupStaleState w.server w (failEnv F)).res = .ok () ↔
      (driver.orphanedClaims w.server).countP (fun c => decide (c ∈ F)) = 0) ∧
    ((driver.orphanedClaims w.server).countP (fun c => decide (c ∈ F)) ≠ 0 →
      (driver.cleanupStaleState w.server w (failEnv F)).res =
        .error (.aggregate
          ((driver.orphanedClaims w.server).countP (fun c => decide (c ∈ F))))) ∧
    (∀ c, ((driver.cleanupStaleState w.server w (failEnv F)).evs).count
        (Ev.dsUnprepare c) =
      (driver.orphanedClaims w.server).count c) ∧
    (∀ c, c ∈ driver.orphanedClaims w.server → c ∉ F →
      mapLookup
        (driver.cleanupStaleState w.server w (failEnv F)).w.server.spec.preparedClaims
        c = none) := by
  obtain ⟨hm1, hm2, hm3, hm4, hm5, hm6⟩ :=
    runUnprepares_failEnv F (driver.orphanedClaims w.server) w hco
  rw [cleanupStaleState_eq]
  by_cases hE :
      (driver.orphanedClaims w.server).countP (fun c => decide (c ∈ F)) = 0
  · rw [if_pos (by rw [hm1]; exact hE)]
    refine ⟨by simp [hE], by simp [hE], ?_, ?_⟩
    · intro c
      exact hm5 c
    · intro c hcm hcf
      rw [hm4 c]
      simp [hcm, hcf]
  · rw [if_neg (by rw [hm1]; exact hE)]
    refine ⟨?_, ?_, ?_, ?_⟩
    · exact iff_of_false (by simp) hE
    · intro _
      show Except.error (Err.aggregate _) = Except.error (Err.aggregate _)
      rw [hm1]
    · intro c
      exact hm5 c
    · intro c hcm hcf
      rw [hm4 c]
      simp [hcm, hcf]

/-- A third sample world for the fan-out isolation scenario: claim `A`
allocated and prepared, claims `B` and `C` prepared but orphaned. -/
def sampleWorld3 : World :=
  { server :=
      { name := "node1", resourceVersion := 9, status := .ready,
        spec := { allocatedClaims := [("A", ⟨1⟩)],
                  preparedClaims :=
                    [("A", ["gpu-A-0"]), ("B", ["gpu-B-0"]), ("C", ["gpu-C-0"])] } },
    mirror :=
      { name := "node1", resourceVersion := 9, status := .ready,
        spec := { allocatedClaims := [("A", ⟨1⟩)],
                  preparedClaims :=
                    [("A", ["gpu-A-0"]), ("B", ["gpu-B-0"]), ("C", ["gpu-C-0"])] } },
    devstate :=
      { prepared := [("A", ["gpu-A-0"]), ("B", ["gpu-B-0"]), ("C", ["gpu-C-0"])],
        cdiCache := [("A", ["gpu-A-0"]), ("B", ["gpu-B-0"]), ("C", ["gpu-C-0"])] } }

/-- Witness for C3 on the concrete isolation scenario: orphans `B` and `C`,
`B`'s unprepare fails, the pass still runs both units, removes `C` from
`PreparedClaims` while keeping `A` and `B`, and reports exactly one
aggregate error. -/
theorem cleanup_pass_error_aggregation_witness :
    (sampleWorld3.devstate.prepared = sampleWorld3.server.spec.preparedClaims) ∧
    ((driver.cleanupStaleState sampleWorld3.server sampleWorld3
        (failEnv ["B"])).res = .error (.aggregate 1) ∧
      ((driver.cleanupStaleState sampleWorld3.server sampleWorld3
        (failEnv ["B"])).evs).count (Ev.dsUnprepare "B") = 1 ∧
      ((driver.cleanupStaleState sampleWorld3.server sampleWorld3
        (failEnv ["B"])).evs).count (Ev.dsUnprepare "C") = 1 ∧
      ((driver.cleanupStaleState sampleWorld3.server sampleWorld3
        (failEnv ["B"])).evs).count (Ev.dsUnprepare "A") = 0 ∧
      mapLookup (driver.cleanupStaleState sampleWorld3.server sampleWorld3
        (failEnv ["B"])).w.server.spec.preparedClaims "C" = none) := by
  have h := cleanup_pass_error_aggregation sampleWorld3 ["B"] (by decide)
  refine ⟨by decide, ?_, ?_, ?_, ?_, h.2.2.2 "C" (by decide) (by decide)⟩
  · have t := h.2.1 (by decide)
    rwa [show (driver.orphanedClaims sampleWorld3.server).countP
      (fun c => decide (c ∈ ["B"])) = 1 from by decide] at t
  · have t := h.2.2.1 "B"
    rwa [show (driver.orphanedClaims sampleWorld3.server).count "B" = 1 from by decide] at t
  · have t := h.2.2.1 "C"
    rwa [show (driver.orphanedClaims sampleWorld3.server).count "C" = 1 from by decide] at t
  · have t := h.2.2.1 "A"
    rwa [show (driver.orphanedClaims sampleWorld3.server).count "A" = 0 from by decide] at t

/- C8: the watch stream. -/

/-- The snapshots against which cleanup passes were run, in order, read off
an event trace. -/
def cleanupPassesOf (evs : List Ev) : List NasRecord :=
  evs.filterMap fun e =>
    match e with
    | .cleanupPass nas => some nas
    | _ => none

theorem cleanupPassesOf_unprepareAttempt (c : ClaimUID) (w : World) (env : Env) :
    cleanupPassesOf (driver.unprepareAttempt c w env).evs = [] := by
  unfold driver.unprepareAttempt
  cases hg : (Client.Get w env).err with
  | some e => simp [hg, cleanupPassesOf]
  | none =>
    cases hp : (DeviceState.Unprepare (Client.Get w env).w.devstate (Client.Get w env).env c).1 with
    | error e => simp [hg, hp, cleanupPassesOf]
    | ok u =>
      simp only [hg, hp]
      cases hu : (Client.Update _ _ _).err <;> simp [hu, cleanupPassesOf]

theorem cleanupPassesOf_retry {α : Type} (body : World → Env → DriverOut α) (n : Nat)
    (hb : ∀ w env, cleanupPassesOf (body w env).evs = []) (w : World) (env : Env) :
    cleanupPassesOf (retryOnConflict body n w env).evs = [] := by
  induction n generalizing w env with
  | zero => simp [retryOnConflict, cleanupPassesOf]
  | succ n ih =>
    have hb0 := hb w env
    rcases hout : body w env with ⟨r, w1, env1, evs⟩
    rw [hout] at hb0
    cases r with
    | ok a => simp [retryOnConflict, hout, hb0]
    | error e =>
      cases e <;>
        by_cases hn : n = 0 <;>
          simp_all [retryOnConflict, hout, cleanupPassesOf, List.filterMap_append] <;>
          exact ih w1 env1

theorem cleanupPassesOf_runUnprepares (cs : List ClaimUID) (w : World) (env : Env) :
    cleanupPassesOf (driver.runUnprepares cs w env).2.2.2 = [] := by
  induction cs generalizing w env with
  | nil => simp [driver.runUnprepares, cleanupPassesOf]
  | cons c rest ih =>
    have hu : cleanupPassesOf (driver.Unprepare c w env).evs = [] :=
      cleanupPassesOf_retry _ _ (fun w' env' => cleanupPassesOf_unprepareAttempt c w' env') w env
    rcases hout : driver.Unprepare c w env with ⟨r, w1, env1, evs⟩
    rw [hout] at hu
    cases r <;>
      simp_all [driver.runUnprepares, hout, cleanupPassesOf, List.filterMap_append] <;>
      exact ih w1 env1

theorem cleanupPassesOf_cleanupStaleState (nas : NasRecord) (w : World) (env : Env) :
    cleanupPassesOf (driver.cleanupStaleState nas w env).evs = [] := by
  rw [cleanupStaleState_eq]
  split <;> exact cleanupPassesOf_runUnprepares (driver.orphanedClaims nas) w env

/-- A cleanup pass with no injected failures succeeds, leaves the schedule
clean and preserves the agreement between the Device State Manager and the
record. -/
theorem cleanupStaleState_clean (nas : NasRecord) (w : World)
    (hco : w.devstate.prepared = w.server.spec.preparedClaims) :
    (driver.cleanupStaleState nas w Env.clean).res = .ok () ∧
    (driver.cleanupStaleState nas w Env.clean).env = Env.clean ∧
    (driver.cleanupStaleState nas w Env.clean).w.devstate.prepared =
      (driver.cleanupStaleState nas w Env.clean).w.server.spec.preparedClaims := by
  have hEnv : Env.clean = failEnv [] := rfl
  rw [hEnv]
  obtain ⟨hm1, hm2, hm3, hm4, hm5, hm6⟩ :=
    runUnprepares_failEnv [] (driver.orphanedClaims nas) w hco
  have hzero : (driver.runUnprepares (driver.orphanedClaims nas) w
      (failEnv [])).1.length = 0 := by
    rw [hm1]
    simp
  rw [cleanupStaleState_eq, if_pos hzero]
  exact ⟨rfl, hm6, hm2⟩

/-- With no injected failures and decodable modification payloads, the
watch-consuming loop succeeds and the passes it runs are exactly one per
modification event, against that event's new value, in order — events of
any other type trigger none. -/
theorem watchLoop_modified_only (events : List WatchEvent) (w : World)
    (hco : w.devstate.prepared = w.server.spec.preparedClaims)
    (hdec : ∀ e ∈ events, e.type = WatchEventType.modified → e.obj.isSome) :
    (driver.watchLoop events w Env.clean).res = .ok () ∧
    (driver.watchLoop events w Env.clean).env = Env.clean ∧
    (driver.watchLoop events w Env.clean).w.devstate.prepared =
      (driver.watchLoop events w Env.clean).w.server.spec.preparedClaims ∧
    cleanupPassesOf (driver.watchLoop events w Env.clean).evs =
      events.filterMap
        (fun e => if e.type = WatchEventType.modified then e.obj else none) := by
  induction events generalizing w with
  | nil => exact ⟨rfl, rfl, hco, rfl⟩
  | cons e rest ih =>
    have hdrest : ∀ e' ∈ rest, e'.type = WatchEventType.modified → e'.obj.isSome :=
      fun e' he' => hdec e' (List.mem_cons_of_mem e he')
    cases hty : e.type with
    | modified =>
      have hobj : e.obj.isSome := hdec e (List.mem_cons_self e rest) hty
      obtain ⟨nas, hnas⟩ := Option.isSome_iff_exists.mp hobj
      obtain ⟨hc1, hc2, hc3⟩ := cleanupStaleState_clean nas w hco
      have hnopass := cleanupPassesOf_cleanupStaleState nas w Env.clean
      rcases hcout : driver.cleanupStaleState nas w Env.clean with ⟨r, w1, env1, evs1⟩
      rw [hcout] at hc1 hc2 hc3 hnopass
      simp only at hc1 hc2 hc3 hnopass
      subst hc1
      subst hc2
      obtain ⟨ih1, ih2, ih3, ih4⟩ := ih w1 hc3 hdrest
      refine ⟨?_, ?_, ?_, ?_⟩
      · simp [driver.watchLoop, hty, hnas, hcout, ih1]
      · simp [driver.watchLoop, hty, hnas, hcout, ih2]
      · simp [driver.watchLoop, hty, hnas, hcout, ih3]
      · simp only [driver.watchLoop, hty, hnas, hcout]
        have hsplit : cleanupPassesOf (Ev.cleanupPass nas :: evs1 ++
            (driver.watchLoop rest w1 Env.clean).evs) =
            nas :: (cleanupPassesOf evs1 ++
              cleanupPassesOf (driver.watchLoop rest w1 Env.clean).evs) := by
          simp [cleanupPassesOf, List.filterMap_append]
        rw [hsplit, hnopass, ih4]
        simp [hty, hnas]
    | added =>
      obtain ⟨ih1, ih2, ih3, ih4⟩ := ih w hco hdrest
      refine ⟨?_, ?_, ?_, ?_⟩ <;> simp [driver.watchLoop, hty, ih1, ih2, ih3, ih4]
    | deleted =>
      obtain ⟨ih1, ih2, ih3, ih4⟩ := ih w hco hdrest
      refine ⟨?_, ?_, ?_, ?_⟩ <;> simp [driver.watchLoop, hty, ih1, ih2, ih3, ih4]
    | bookmark =>
      obtain ⟨ih1, ih2, ih3, ih4⟩ := ih w hco hdrest
      refine ⟨?_, ?_, ?_, ?_⟩ <;> simp [driver.watchLoop, hty, ih1, ih2, ih3, ih4]

/-- C8: one supervisory iteration with a successful resync opens the watch
from the version token captured by the resync list (as a plain watch with
no error timeout), and, while the stream is open, runs one cleanup pass for
every modification event — against that event's new value — and none for
events of any other type (the only other pass in the trace is the resync's
own, against the listed record). -/
theorem watch_modified_only_and_resume_token (w : World) (events : List WatchEvent)
    (hco : w.devstate.prepared = w.server.spec.preparedClaims)
    (hdec : ∀ e ∈ events, e.type = WatchEventType.modified → e.obj.isSome) :
    (driver.cleanupIteration events w Env.clean).1.resourceVersion =
      w.server.resourceVersion ∧
    (driver.cleanupIteration events w Env.clean).1.watch = true ∧
    (driver.cleanupIteration events w Env.clean).1.timeoutSeconds = none ∧
    cleanupPassesOf (driver.cleanupIteration events w Env.clean).2.evs =
      w.server :: events.filterMap
        (fun e => if e.type = WatchEventType.modified then e.obj else none) := by
  obtain ⟨hc1, hc2, hc3⟩ := cleanupStaleState_clean w.server w hco
  have hnopass := cleanupPassesOf_cleanupStaleState w.server w Env.clean
  rcases hcout : driver.cleanupStaleState w.server w Env.clean with ⟨r, w1, env1, evs1⟩
  rw [hcout] at hc1 hc2 hc3 hnopass
  simp only at hc1 hc2 hc3 hnopass
  subst hc1
  subst hc2
  have honce : driver.cleanupStaleStateOnce w Env.clean =
      ⟨.ok w.server.resourceVersion, w1, Env.clean, Ev.cleanupPass w.server :: evs1⟩ := by
    simp [driver.cleanupStaleStateOnce, hcout]
  obtain ⟨hw1, hw2, hw3, hw4⟩ := watchLoop_modified_only events w1 hc3 hdec
  refine ⟨?_, ?_, ?_, ?_⟩
  · simp [driver.cleanupIteration, honce, driver.cleanupStaleStateContinuously,
      driver.watchOptions]
  · simp [driver.cleanupIteration, honce, driver.cleanupStaleStateContinuously,
      driver.watchOptions]
  · simp [driver.cleanupIteration, honce, driver.cleanupStaleStateContinuously,
      driver.watchOptions]
  · simp only [driver.cleanupIteration, honce, driver.cleanupStaleStateContinuously]
    have hsplit : cleanupPassesOf ((Ev.cleanupPass w.server :: evs1) ++
        (driver.watchLoop events w1 Env.clean).evs) =
        w.server :: (cleanupPassesOf evs1 ++
          cleanupPassesOf (driver.watchLoop events w1 Env.clean).evs) := by
      simp [cleanupPassesOf, List.filterMap_append]
    rw [hsplit, hnopass, hw4]
    simp

/-- A sample watch stream: an addition, two modifications and a deletion. -/
def sampleEvents : List WatchEvent :=
  [⟨.added, some sampleRecord⟩, ⟨.modified, some sampleRecord⟩,
    ⟨.deleted, some sampleRecord⟩, ⟨.modified, some sampleWorld2.server⟩]

/-- Witness for C8 on the concrete stream: the watch resumes from the
resync token and exactly the two modification events trigger passes. -/
theorem watch_modified_only_and_resume_token_witness :
    (driver.cleanupIteration sampleEvents sampleWorld Env.clean).1.resourceVersion =
      sampleWorld.server.resourceVersion ∧
    (driver.cleanupIteration sampleEvents sampleWorld Env.clean).1.watch = true ∧
    (driver.cleanupIteration sampleEvents sampleWorld Env.clean).1.timeoutSeconds =
      none ∧
    cleanupPassesOf (driver.cleanupIteration sampleEvents sampleWorld Env.clean).2.evs =
      [sampleRecord, sampleRecord, sampleWorld2.server] := by
  have h := watch_modified_only_and_resume_token sampleWorld sampleEvents (by decide)
    (by decide)
  exact ⟨h.1, h.2.1, h.2.2.1, h.2.2.2.trans (by decide)⟩

/- C6: driver construction. -/

/-- An environment whose status updates follow the given schedule and
everything else succeeds. -/
def statusEnv (l : List (Option Err)) : Env :=
  { Env.clean with updateStatusResults := l }

theorem newDriverAttempt_statusConflict (w : World) (l : List (Option Err)) :
    driver.newDriverAttempt w (statusEnv (some Err.conflict :: l)) =
      ⟨.error .conflict, { w with mirror := w.server }, statusEnv l,
        [Ev.clientGetOrCreate, Ev.clientUpdateStatus .notReady]⟩ := by
  simp [driver.newDriverAttempt, Client.GetOrCreate, Client.UpdateStatus, statusEnv,
    Env.clean]

theorem newDriverAttempt_clean_res (w : World) :
    (driver.newDriverAttempt w Env.clean).res = .ok () := by
  simp [driver.newDriverAttempt, Client.GetOrCreate, Client.UpdateStatus,
    Client.Update, Env.clean, newDeviceState, DeviceState.GetUpdatedSpec]

theorem newDriverAttempt_clean_evs (w : World) :
    (driver.newDriverAttempt w Env.clean).evs =
      [Ev.clientGetOrCreate, Ev.clientUpdateStatus .notReady, Ev.clientUpdate,
        Ev.clientUpdateStatus .ready] := by
  simp [driver.newDriverAttempt, Client.GetOrCreate, Client.UpdateStatus,
    Client.Update, Env.clean, newDeviceState, DeviceState.GetUpdatedSpec]

theorem newDriver_underBudget (k : Nat) : ∀ (s : Nat) (w : World), k < s + 1 →
    (retryOnConflict driver.newDriverAttempt (s + 1) w
      (statusEnv (List.replicate k (some Err.conflict)))).res = .ok () ∧
    ((retryOnConflict driver.newDriverAttempt (s + 1) w
      (statusEnv (List.replicate k (some Err.conflict)))).evs).count
      Ev.clientGetOrCreate = k + 1 := by
  induction k with
  | zero =>
    intro s w _
    have henv : statusEnv (List.replicate 0 (some Err.conflict)) = Env.clean := rfl
    rw [henv]
    have hstop := retryOnConflict_stop driver.newDriverAttempt s w Env.clean ?_
    · rw [hstop]
      refine ⟨newDriverAttempt_clean_res w, ?_⟩
      rw [newDriverAttempt_clean_evs w]
      decide
    · intro e he
      rw [newDriverAttempt_clean_res w] at he
      simp at he
  | succ k ih =>
    intro s w hks
    cases s with
    | zero => omega
    | succ s =>
      have hrep : List.replicate (k + 1) (some Err.conflict) =
          some Err.conflict :: List.replicate k (some Err.conflict) := rfl
      have hbody : driver.newDriverAttempt w
          (statusEnv (List.replicate (k + 1) (some Err.conflict))) =
          ⟨.error .conflict, { w with mirror := w.server },
            statusEnv (List.replicate k (some Err.conflict)),
            [Ev.clientGetOrCreate, Ev.clientUpdateStatus .notReady]⟩ := by
        rw [hrep]
        exact newDriverAttempt_statusConflict w _
      rw [retryOnConflict_step_conflict driver.newDriverAttempt s w _
        { w with mirror := w.server } (statusEnv (List.replicate k (some Err.conflict)))
        [Ev.clientGetOrCreate, Ev.clientUpdateStatus .notReady] hbody]
      obtain ⟨ih1, ih2⟩ := ih s { w with mirror := w.server } (by omega)
      refine ⟨ih1, ?_⟩
      simp [List.count_append, List.count_cons, ih2]

theorem newDriver_overBudget : ∀ (s : Nat) (k : Nat) (w : World), s + 1 ≤ k →
    (retryOnConflict driver.newDriverAttempt (s + 1) w
      (statusEnv (List.replicate k (some Err.conflict)))).res = .error .conflict := by
  intro s
  induction s with
  | zero =>
    intro k w hk
    cases k with
    | zero => omega
    | succ k =>
      have hrep : List.replicate (k + 1) (some Err.conflict) =
          some Err.conflict :: List.replicate k (some Err.conflict) := rfl
      have hbody : driver.newDriverAttempt w
          (statusEnv (List.replicate (k + 1) (some Err.conflict))) =
          ⟨.error .conflict, { w with mirror := w.server },
            statusEnv (List.replicate k (some Err.conflict)),
            [Ev.clientGetOrCreate, Ev.clientUpdateStatus .notReady]⟩ := by
        rw [hrep]
        exact newDriverAttempt_statusConflict w _
      rw [retryOnConflict_one_conflict driver.newDriverAttempt w _
        { w with mirror := w.server } (statusEnv (List.replicate k (some Err.conflict)))
        [Ev.clientGetOrCreate, Ev.clientUpdateStatus .notReady] hbody]
  | succ s ih =>
    intro k w hk
    cases k with
    | zero => omega
    | succ k =>
      have hrep : List.replicate (k + 1) (some Err.conflict) =
          some Err.conflict :: List.replicate k (some Err.conflict) := rfl
      have hbody : driver.newDriverAttempt w
          (statusEnv (List.replicate (k + 1) (some Err.conflict))) =
          ⟨.error .conflict, { w with mirror := w.server },
            statusEnv (List.replicate k (some Err.conflict)),
            [Ev.clientGetOrCreate, Ev.clientUpdateStatus .notReady]⟩ := by
        rw [hrep]
        exact newDriverAttempt_statusConflict w _
      rw [retryOnConflict_step_conflict driver.newDriverAttempt s w _
        { w with mirror := w.server } (statusEnv (List.replicate k (some Err.conflict)))
        [Ev.clientGetOrCreate, Ev.clientUpdateStatus .notReady] hbody]
      exact ih k { w with mirror := w.server } (by omega)

theorem NewDriver_cases (w : World) (env : Env) :
    (NewDriver w env).res =
      (retryOnConflict driver.newDriverAttempt defaultRetrySteps w env).res ∧
    ((NewDriver w env).loopStarted = true ↔ (NewDriver w env).res = .ok ()) ∧
    (NewDriver w env).evs =
      (retryOnConflict driver.newDriverAttempt defaultRetrySteps w env).evs := by
  rcases hout : retryOnConflict driver.newDriverAttempt defaultRetrySteps w env
    with ⟨r, w1, env1, evs⟩
  cases r <;> simp [NewDriver, hout]

/-- C6: the construction sequence restarts from a fresh read (a new
get-or-create) on every version-conflict failure, up to the fixed retry
budget of 5 attempts, succeeding if the conflicts stop in time and
surfacing the conflict error once the budget is exhausted; an attempt
failing with any other error aborts construction with that error; in every
case the reconciliation loop is started exactly when the sequence succeeds
and the constructor merely spawns it. -/
theorem newDriver_retry_and_abort :
    (∀ (w : World) (env : Env),
      (NewDriver w env).loopStarted = true ↔ (NewDriver w env).res = .ok ()) ∧
    (∀ (w : World) (env : Env) (e : Err) (w1 : World) (env1 : Env) (evs : List Ev),
      e ≠ Err.conflict →
      driver.newDriverAttempt w env = ⟨.error e, w1, env1, evs⟩ →
      (NewDriver w env).res = .error e ∧ (NewDriver w env).loopStarted = false) ∧
    (∀ (w : World) (k : Nat), k < defaultRetrySteps →
      (NewDriver w (statusEnv (List.replicate k (some Err.conflict)))).res = .ok () ∧
      (NewDriver w (statusEnv (List.replicate k (some Err.conflict)))).loopStarted =
        true ∧
      ((NewDriver w (statusEnv (List.replicate k (some Err.conflict)))).evs).count
        Ev.clientGetOrCreate = k + 1) ∧
    (∀ (w : World) (k : Nat), defaultRetrySteps ≤ k →
      (NewDriver w (statusEnv (List.replicate k (some Err.conflict)))).res =
        .error .conflict ∧
      (NewDriver w (statusEnv (List.replicate k (some Err.conflict)))).loopStarted =
        false) := by
  refine ⟨fun w env => (NewDriver_cases w env).2.1, ?_, ?_, ?_⟩
  · intro w env e w1 env1 evs he hbody
    have hstop : retryOnConflict driver.newDriverAttempt (4 + 1) w env =
        driver.newDriverAttempt w env := by
      refine retryOnConflict_stop _ 4 w env ?_
      intro e' he'
      rw [hbody] at he'
      cases he'
      exact he
    have hres : (NewDriver w env).res = .error e := by
      rw [(NewDriver_cases w env).1]
      show (retryOnConflict driver.newDriverAttempt (4 + 1) w env).res = .error e
      rw [hstop, hbody]
    refine ⟨hres, ?_⟩
    have hiff := (NewDriver_cases w env).2.1
    cases hls : (NewDriver w env).loopStarted with
    | false => rfl
    | true =>
      have := hiff.mp hls
      rw [hres] at this
      cases this
  · intro w k hk
    have hub := newDriver_underBudget k 4 w hk
    have hres : (NewDriver w (statusEnv (List.replicate k (some Err.conflict)))).res =
        .ok () := by
      rw [(NewDriver_cases w _).1]
      exact hub.1
    refine ⟨hres, ((NewDriver_cases w _).2.1).mpr hres, ?_⟩
    rw [(NewDriver_cases w _).2.2]
    exact hub.2
  · intro w k hk
    have hob := newDriver_overBudget 4 k w hk
    have hres : (NewDriver w (statusEnv (List.replicate k (some Err.conflict)))).res =
        .error .conflict := by
      rw [(NewDriver_cases w _).1]
      exact hob
    refine ⟨hres, ?_⟩
    have hiff :=
      (NewDriver_cases w (statusEnv (List.replicate k (some Err.conflict)))).2.1
    cases hls : (NewDriver w (statusEnv (List.replicate k
        (some Err.conflict)))).loopStarted with
    | false => rfl
    | true =>
      have := hiff.mp hls
      rw [hres] at this
      cases this

/-- Witness for C6: a concrete non-conflict failure aborts construction
with no driver and no loop; two concrete conflicts then success give a
constructed driver after three fresh reads; seven conflicts exhaust the
budget. -/
theorem newDriver_retry_and_abort_witness :
    ((NewDriver sampleWorld
        { Env.clean with getOrCreateResults := [some (Err.other "boom")] }).res =
        .error (.other "boom") ∧
      (NewDriver sampleWorld
        { Env.clean with getOrCreateResults := [some (Err.other "boom")] }).loopStarted =
        false) ∧
    ((NewDriver sampleWorld (statusEnv (List.replicate 2 (some Err.conflict)))).res =
        .ok () ∧
      (NewDriver sampleWorld
        (statusEnv (List.replicate 2 (some Err.conflict)))).loopStarted = true ∧
      ((NewDriver sampleWorld (statusEnv (List.replicate 2 (some Err.conflict)))).evs).count
        Ev.clientGetOrCreate = 3) ∧
    ((NewDriver sampleWorld (statusEnv (List.replicate 7 (some Err.conflict)))).res =
        .error .conflict ∧
      (NewDriver sampleWorld
        (statusEnv (List.replicate 7 (some Err.conflict)))).loopStarted = false) := by
  obtain ⟨h1, h2, h3, h4⟩ := newDriver_retry_and_abort
  refine ⟨?_, h3 sampleWorld 2 (by decide), h4 sampleWorld 7 (by decide)⟩
  exact h2 sampleWorld { Env.clean with getOrCreateResults := [some (Err.other "boom")] }
    (Err.other "boom") sampleWorld
    { Env.clean with getOrCreateResults := [] } [Ev.clientGetOrCreate]
    (by simp) rfl
